import Mathlib

/-!
Shallow embedding of the allocation / lifecycle / capacity-control engine of the
multi-user-code-server repository.

The embedded fragment covers:
* `src/server/src/utils/redis.ts` (session store helpers over Redis),
* `src/server/src/utils/awsUtils.ts` (cloud adapter helpers),
* `src/server/src/utils/machineManager.ts` (`ensureCapacity`, `allocateMachine`),
* `src/server/src/utils/cleanUpManager.ts` (`cleanupIdleMachines`,
  `safeScaleDown`, `ensureOptimalWarmSpares`),
* the webhook handler variant with `processTerminatedInstance`,
* `src/server/src/utils/allocateMachine.ts` (the doc-variant allocator with the
  `Number(process.env.ASG_MAX) ?? 3` constant).

Stateful TypeScript code becomes explicit state passing on a `St` record; every
fallible external call is driven by an `Env` oracle that says which calls fail
(a `true` flag models a rejected promise / thrown error).  `try/catch` becomes
`Except` threading.  Redis sorted sets and sets are modelled as lists with the
set-discipline of the corresponding commands; `SPOP` is determinised to pop the
head of the list.
-/

namespace MCS

/-- One Redis hash stored at key `ws:<userId>`; a field that was never written
is `none` (reads of it in TS yield `undefined`). -/
structure WsHash where
  instanceId : Option String
  publicIp : Option String
  lastSeen : Option String
  state : Option String
  ts : Option String
deriving Repr, DecidableEq

/-- `WorkspaceInfo` from `src/server/src/types/index.ts` restricted to the five
fields that `setUserWorkspace` in `redis.ts` actually persists.  `state` is the
string value of the `INSTANCE_STATE` enum. -/
structure WorkspaceInfo where
  instanceId : String
  publicIp : String
  lastSeen : String
  state : String
  ts : String
deriving Repr, DecidableEq

/-- The hash written by `HMSET ws:<u>` for a full workspace record. -/
def WorkspaceInfo.toHash (w : WorkspaceInfo) : WsHash :=
  ⟨some w.instanceId, some w.publicIp, some w.lastSeen, some w.state, some w.ts⟩

/-- JavaScript truthiness of an `Option String` field (`undefined` and the empty
string are falsy). -/
def truthy : Option String → Bool
  | none => false
  | some s => s ≠ ""

/-- The slice of `DescribeInstances` output the code reads:
`Reservations[0].Instances[0]`. -/
structure CloudInst where
  publicIpAddress : Option String
  publicDnsName : Option String
  instanceId : Option String
  stateName : Option String
deriving Repr, DecidableEq

/-- Joint state of the Redis store and the cloud side that the code mutates. -/
structure St where
  /-- key `ws:<userId>` -/
  ws : String → Option WsHash
  /-- key `inst:<instanceId>` -/
  inst : String → Option String
  /-- sorted set `ws:pings`: member, score pairs -/
  pings : List (String × Int)
  /-- set `ws:pool` -/
  pool : List String
  /-- EC2 tags per instance: (Owner, WarmSpare) values -/
  tags : String → Option (String × String)
  /-- scale-in protection flag per instance -/
  prot : String → Bool
  /-- ASG desired capacity -/
  asgDesired : Int
  /-- instances terminated via `TerminateInstanceInAutoScalingGroup` -/
  terminated : List String

/-- Failure / input oracle for the external calls.  A `true` flag makes the
corresponding call throw (reject); `describe` is the read-only cloud view. -/
structure Env where
  describe : String → Option CloudInst
  ec2DescribeFails : String → Bool
  hgetallFails : String → Bool
  spopFails : Bool
  zcardFails : Bool
  zrangeFails : Bool
  scardFails : Bool
  setWsFails : String → Bool
  tagFails : String → Bool
  protectFails : String → Bool
  unprotectFails : String → Bool
  saddFails : String → Bool
  sremFails : String → Bool
  termFails : String → Bool
  cleanupFails : String → Bool
  instGetFails : String → Bool
  asgDescribeFails : Bool
  asgSetFails : Bool
  /-- `Date.now()` at the call site -/
  now : Int
  /-- `IDLE_TIMEOUT_MS` -/
  idleTimeoutMs : Int
  /-- instance ids currently in the ASG (read by `getASGInstancesInfo`) -/
  asgInstanceIds : List String

/-- Configuration constants from `awsConfig.ts`
(`MAX_MACHINES`, `WARM_SPARE_COUNT`). -/
structure Cfg where
  maxMachines : Int
  warmSpareCount : Int
deriving Repr, DecidableEq

/-- Pointwise map update. -/
def upd {α : Type} (f : String → α) (k : String) (v : α) : String → α :=
  fun j => if j = k then v else f j

/-- `ZADD key score member` upsert semantics on the modelled sorted set. -/
def zadd (m : String) (s : Int) (l : List (String × Int)) : List (String × Int) :=
  l.filter (fun p => p.1 ≠ m) ++ [(m, s)]

/-- `ZREM` semantics. -/
def zrem (m : String) (l : List (String × Int)) : List (String × Int) :=
  l.filter (fun p => p.1 ≠ m)

/-- Members of the modelled sorted set. -/
def zmembers (l : List (String × Int)) : List String :=
  l.map Prod.fst

/-- `SADD` set semantics on the modelled list. -/
def sadd (i : String) (l : List String) : List String :=
  if i ∈ l then l else l ++ [i]

/-- `parseInt` restricted to the decimal integer strings the code produces via
`Date.now().toString()`. -/
def parseIntJS (s : String) : Int :=
  (s.toInt?).getD 0

/-! ## redis.ts -/

/-- `getUserWorkspace` (redis.ts): `HGETALL ws:<u>`; an empty hash yields
`null`; any error is caught and also yields `null`. -/
def getUserWorkspace (env : Env) (st : St) (u : String) : Option WsHash :=
  if env.hgetallFails u then none else st.ws u

/-- `popWarmSpare` (redis.ts): `SPOP ws:pool`; errors are caught and yield
`null` with no state change. -/
def popWarmSpare (env : Env) (st : St) : Option String × St :=
  if env.spopFails then (none, st)
  else
    match st.pool with
    | [] => (none, st)
    | i :: rest => (some i, { st with pool := rest })

/-- `setUserWorkspace` (redis.ts): one `MULTI` of
`HMSET ws:<u>` + `SET inst:<i> u` + `ZADD ws:pings lastSeen u`; atomic, rethrows
on error. -/
def setUserWorkspace (env : Env) (u : String) (w : WorkspaceInfo) (st : St) :
    Except String St :=
  if env.setWsFails u then .error "redis write failed"
  else
    .ok { st with
      ws := upd st.ws u (some w.toHash),
      inst := upd st.inst w.instanceId (some u),
      pings := zadd u (parseIntJS w.lastSeen) st.pings }

/-- `getActiveUserCount` (redis.ts): `ZCARD ws:pings`; errors caught, `0`. -/
def getActiveUserCount (env : Env) (st : St) : Int :=
  if env.zcardFails then 0 else st.pings.length

/-- `getUserFromInstance` (redis.ts): `GET inst:<i>`; errors caught, `null`. -/
def getUserFromInstance (env : Env) (st : St) (i : String) : Option String :=
  if env.instGetFails i then none else st.inst i

/-- `getIdleUsers` (redis.ts): `ZRANGEBYSCORE ws:pings -inf (now - IDLE_TIMEOUT_MS)`;
errors caught, empty list. -/
def getIdleUsers (env : Env) (st : St) : List String :=
  if env.zrangeFails then []
  else (st.pings.filter (fun p => p.2 ≤ env.now - env.idleTimeoutMs)).map Prod.fst

/-- `removeFromWarmPool` (redis.ts): `SREM ws:pool i`; rethrows on error. -/
def removeFromWarmPool (env : Env) (i : String) (st : St) : Except String St :=
  if env.sremFails i then .error "redis srem failed"
  else .ok { st with pool := st.pool.filter (fun j => j ≠ i) }

/-- `cleanupUserData` (redis.ts): one `MULTI` of
`HSET ws:<u> state STOPPED` + `ZREM ws:pings u` + `DEL inst:<i>`; rethrows on
error.  Note the `ws:<u>` hash itself is never deleted. -/
def cleanupUserData (env : Env) (u : String) (i : String) (st : St) :
    Except String St :=
  if env.cleanupFails u then .error "redis cleanup failed"
  else
    .ok { st with
      ws := upd st.ws u (some (match st.ws u with
        | some w => { w with state := some "STOPPED" }
        | none => ⟨none, none, none, some "STOPPED", none⟩)),
      pings := zrem u st.pings,
      inst := upd st.inst i none }

/-- `getWarmPoolSize` (redis.ts): `SCARD ws:pool`; errors caught, `0`. -/
def getWarmPoolSize (env : Env) (st : St) : Int :=
  if env.scardFails then 0 else st.pool.length

/-- `addToWarmPool` (redis.ts): `SADD ws:pool i`; rethrows on error. -/
def addToWarmPool (env : Env) (i : String) (st : St) : Except String St :=
  if env.saddFails i then .error "redis sadd failed"
  else .ok { st with pool := sadd i st.pool }

/-! ## awsUtils.ts -/

/-- `safelyTerminateInstance`: `TerminateInstanceInAutoScalingGroup` with
`ShouldDecrementDesiredCapacity: true`; rethrows on error. -/
def safelyTerminateInstance (env : Env) (i : String) (st : St) :
    Except String St :=
  if env.termFails i then .error "terminate failed"
  else .ok { st with terminated := st.terminated ++ [i], asgDesired := st.asgDesired - 1 }

/-- `getInstanceIP` (awsUtils.ts): `DescribeInstances`; if
`Reservations[0].Instances[0].PublicIpAddress` is falsy, the instance is
terminated-decrementing and an error is thrown; the outer catch rethrows.  The
error value carries the state reached when the throw happens. -/
def getInstanceIP (env : Env) (i : String) (st : St) :
    Except (String × St) (String × St) :=
  if env.ec2DescribeFails i then .error ("describe failed", st)
  else
    match env.describe i with
    | some ci =>
      match ci.publicIpAddress with
      | some ip =>
        if ip = "" then
          match safelyTerminateInstance env i st with
          | .error e => .error (e, st)
          | .ok st1 => .error ("Instance has no public IP and was terminated", st1)
        else .ok (ip, st)
      | none =>
        match safelyTerminateInstance env i st with
        | .error e => .error (e, st)
        | .ok st1 => .error ("Instance has no public IP and was terminated", st1)
    | none =>
      match safelyTerminateInstance env i st with
      | .error e => .error (e, st)
      | .ok st1 => .error ("Instance has no public IP and was terminated", st1)

/-- `tagInstance` (awsUtils.ts): `CreateTags` with
`Owner=userId, WarmSpare=(userId == "UNASSIGNED")`; rethrows on error. -/
def tagInstance (env : Env) (i : String) (owner : String) (st : St) :
    Except String St :=
  if env.tagFails i then .error "tag failed"
  else
    .ok { st with
      tags := upd st.tags i (some (owner, if owner = "UNASSIGNED" then "true" else "false")) }

/-- `protectActiveInstances` (awsUtils.ts): batch `SetInstanceProtection true`;
no-op on the empty list; rethrows on error. -/
def protectActiveInstances (env : Env) (ids : List String) (st : St) :
    Except String St :=
  if ids = [] then .ok st
  else if ids.any env.protectFails then .error "protect failed"
  else .ok { st with prot := fun j => if j ∈ ids then true else st.prot j }

/-- `removeInstanceProtection` (awsUtils.ts): batch
`SetInstanceProtection false`; no-op on the empty list; rethrows on error. -/
def removeInstanceProtection (env : Env) (ids : List String) (st : St) :
    Except String St :=
  if ids = [] then .ok st
  else if ids.any env.unprotectFails then .error "unprotect failed"
  else .ok { st with prot := fun j => if j ∈ ids then false else st.prot j }

/-- `getCurrentASGCapacity` (awsUtils.ts): `DescribeAutoScalingGroups`; yields
`DesiredCapacity || 0`; rethrows on error. -/
def getCurrentASGCapacity (env : Env) (st : St) : Except String Int :=
  if env.asgDescribeFails then .error "asg describe failed" else .ok st.asgDesired

/-- `updateASGCapacity` (awsUtils.ts): `SetDesiredCapacity`; rethrows on
error. -/
def updateASGCapacity (env : Env) (n : Int) (st : St) : Except String St :=
  if env.asgSetFails then .error "asg set failed" else .ok { st with asgDesired := n }

/-- One row of `getASGInstancesInfo` output. -/
structure InstanceInfo where
  instanceId : String
  owner : String
  isActive : Bool
deriving Repr, DecidableEq

/-- `getASGInstancesInfo` (awsUtils.ts): lists ASG instances with their `Owner`
tag (`"UNKNOWN"` when untagged); `isActive` iff the owner is neither
`UNASSIGNED` nor `UNKNOWN`. -/
def getASGInstancesInfo (env : Env) (st : St) : List InstanceInfo :=
  env.asgInstanceIds.map (fun i =>
    let owner := ((st.tags i).map Prod.fst).getD "UNKNOWN"
    ⟨i, owner, owner ≠ "UNASSIGNED" ∧ owner ≠ "UNKNOWN"⟩)

/-! ## machineManager.ts -/

/-- `data` payload of a success response. -/
structure RespData where
  instanceId : Option String
  publicUrl : Option String
deriving Repr, DecidableEq

/-- `SuccessResponse | ErrorResponse` from `types/index.ts`, merged into one
record (`data = none` on the error shape, `error = none` on the success
shape). -/
structure Resp where
  success : Bool
  message : String
  status : String
  data : Option RespData
  error : Option String
deriving Repr, DecidableEq

/-- The error-shape response produced by `allocateMachine`'s catch block. -/
def errResp (msg : String) : Resp :=
  ⟨false, msg, "error", none, some msg⟩

/-- `ensureCapacity` (machineManager.ts):
`desired = min(activeUsers + WARM_SPARE_COUNT, MAX_MACHINES)`; scale up only
when `desired > current`; rethrows cloud errors, carrying the unchanged
state. -/
def ensureCapacity (cfg : Cfg) (env : Env) (st : St) : Except (String × St) St :=
  let activeUsers := getActiveUserCount env st
  let desired := min (activeUsers + cfg.warmSpareCount) cfg.maxMachines
  match getCurrentASGCapacity env st with
  | .error e => .error (e, st)
  | .ok current =>
    if desired > current then
      match updateASGCapacity env desired st with
      | .error e => .error (e, st)
      | .ok st1 => .ok st1
    else .ok st

/-- The catch-block rollback of `allocateMachine` (machineManager.ts), run only
when `instanceId` is set and `shouldRollback` is true: remove protection,
re-tag `Owner=UNASSIGNED`, return to warm pool — each step individually
best-effort (its error is swallowed). -/
def allocRollback (env : Env) (i : String) (st : St) : St :=
  let st1 := match removeInstanceProtection env [i] st with
    | .ok s => s
    | .error _ => st
  let st2 := match tagInstance env i "UNASSIGNED" st1 with
    | .ok s => s
    | .error _ => st1
  match addToWarmPool env i st2 with
  | .ok s => s
  | .error _ => st2

/-- `allocateMachine` (machineManager.ts).  Sequencing and the
`shouldRollback` discipline follow the source: the rollback only runs for
failures after `getInstanceIP` succeeded. -/
def allocateMachine (cfg : Cfg) (env : Env) (u : String) (st : St) : Resp × St :=
  match getUserWorkspace env st u with
  | some w =>
    if w.state = some "RUNNING" ∧ truthy w.publicIp then
      (⟨true, "Machine already allocated", "success",
        some ⟨w.instanceId, w.publicIp⟩, none⟩, st)
    else allocateMachineClaim cfg env u st
  | none => allocateMachineClaim cfg env u st
where
  /-- the part of the pipeline after the idempotency check -/
  allocateMachineClaim (cfg : Cfg) (env : Env) (u : String) (st : St) : Resp × St :=
    match popWarmSpare env st with
    | (none, st1) =>
      -- no warm spare: trigger capacity increase, ask the user to retry;
      -- a throw from ensureCapacity reaches the catch with instanceId null
      match ensureCapacity cfg env st1 with
      | .error (e, st2) => (errResp e, st2)
      | .ok st2 =>
        (⟨false, "No available machines. Please try again in a moment.",
          "processing", none, some "No warm spare available"⟩, st2)
    | (some i, st1) =>
      match getInstanceIP env i st1 with
      | .error (e, st2) => (errResp e, st2)  -- shouldRollback still false
      | .ok (publicIp, st2) =>
        -- shouldRollback = true from here on
        match tagInstance env i u st2 with
        | .error e => (errResp e, allocRollback env i st2)
        | .ok st3 =>
          match protectActiveInstances env [i] st3 with
          | .error e => (errResp e, allocRollback env i st3)
          | .ok st4 =>
            let w : WorkspaceInfo :=
              ⟨i, publicIp, toString env.now, "RUNNING", toString env.now⟩
            match setUserWorkspace env u w st4 with
            | .error e => (errResp e, allocRollback env i st4)
            | .ok st5 =>
              match ensureCapacity cfg env st5 with
              | .error (e, st6) => (errResp e, allocRollback env i st6)
              | .ok st6 =>
                (⟨true, "Machine allocated successfully", "success",
                  some ⟨some i, some publicIp⟩, none⟩, st6)

/-! ## cleanUpManager.ts -/

/-- `CleanupResult` from `types/index.ts`. -/
structure CleanupResult where
  terminatedInstances : List String
  cleanedUsers : List String
  errors : List String
deriving Repr, DecidableEq

/-- The per-user error message pushed by the reaper's catch block. -/
def cleanupErrMsg (u msg : String) : String :=
  "Failed to cleanup user " ++ u ++ ": " ++ msg

/-- The body of the `for (const userId of idleUsers)` loop of
`cleanupIdleMachines`, for one user: skip when the workspace is absent or
`workspace.instanceId` is falsy; otherwise pool-remove,
terminate-decrementing, session cleanup; the per-user try/catch turns a
failure into an `errors` entry, keeping the state reached so far. -/
def cleanupStep (env : Env) (u : String) (res : CleanupResult) (st : St) :
    CleanupResult × St :=
  match getUserWorkspace env st u with
  | none => (res, st)
  | some w =>
    match w.instanceId with
    | none => (res, st)
    | some i =>
      if i = "" then (res, st)
      else
        match removeFromWarmPool env i st with
        | .error e =>
          ({ res with errors := res.errors ++ [cleanupErrMsg u e] }, st)
        | .ok st1 =>
          match safelyTerminateInstance env i st1 with
          | .error e =>
            ({ res with errors := res.errors ++ [cleanupErrMsg u e] }, st1)
          | .ok st2 =>
            match cleanupUserData env u i st2 with
            | .error e =>
              ({ res with errors := res.errors ++ [cleanupErrMsg u e] }, st2)
            | .ok st3 =>
              ({ res with
                terminatedInstances := res.terminatedInstances ++ [i],
                cleanedUsers := res.cleanedUsers ++ [u] }, st3)

/-- The `for (const userId of idleUsers)` loop of `cleanupIdleMachines`:
one `cleanupStep` per user, carrying the accumulated result and state. -/
def cleanupLoop (env : Env) : List String → CleanupResult → St → CleanupResult × St
  | [], res, st => (res, st)
  | u :: rest, res, st =>
    cleanupLoop env rest (cleanupStep env u res st).1 (cleanupStep env u res st).2

/-- `cleanupIdleMachines` (cleanUpManager.ts): fetch the idle users (errors
yield the empty list) and run the per-user loop. -/
def cleanupIdleMachines (env : Env) (st : St) : CleanupResult × St :=
  cleanupLoop env (getIdleUsers env st) ⟨[], [], []⟩ st

/-- `safeScaleDown` (cleanUpManager.ts): no-op when `target >= current`;
otherwise protect all active instances, then set desired capacity. -/
def safeScaleDown (env : Env) (target : Int) (st : St) : Except (String × St) St :=
  match getCurrentASGCapacity env st with
  | .error e => .error (e, st)
  | .ok current =>
    if target ≥ current then .ok st
    else
      let activeInstances :=
        ((getASGInstancesInfo env st).filter (fun r => r.isActive)).map
          (fun r => r.instanceId)
      match protectActiveInstances env activeInstances st with
      | .error e => .error (e, st)
      | .ok st1 =>
        match updateASGCapacity env target st1 with
        | .error e => .error (e, st1)
        | .ok st2 => .ok st2

/-- `ensureOptimalWarmSpares` (cleanUpManager.ts): note
`targetCapacity = activeUsers + WARM_SPARE_COUNT` with no `MAX_MACHINES`
clamp; scale up when `current < target`; scale down safely when
`current > target` and the pool holds more than the warm-spare target. -/
def ensureOptimalWarmSpares (cfg : Cfg) (env : Env) (st : St) :
    Except (String × St) St :=
  let activeUsers := getActiveUserCount env st
  let warmPoolSize := getWarmPoolSize env st
  match getCurrentASGCapacity env st with
  | .error e => .error (e, st)
  | .ok current =>
    let target := activeUsers + cfg.warmSpareCount
    if current < target then
      match updateASGCapacity env target st with
      | .error e => .error (e, st)
      | .ok st1 => .ok st1
    else if current > target ∧ warmPoolSize > cfg.warmSpareCount then
      safeScaleDown env target st
    else .ok st

/-! ## webhook handler (lifecycle reactor, terminate path) -/

/-- `processTerminatedInstance` (webhook handler): pool-remove, then session
cleanup when the inverse mapping names a user; its catch block swallows every
error, so the function is total and keeps the state reached so far.
`getUserFromInstance` itself catches read errors and yields `null`, which the
handler treats as "no user". -/
def processTerminatedInstance (env : Env) (i : String) (st : St) : St :=
  match removeFromWarmPool env i st with
  | .error _ => st
  | .ok st1 =>
    match getUserFromInstance env st1 i with
    | none => st1
    | some u =>
      match cleanupUserData env u i st1 with
      | .error _ => st1
      | .ok st2 => st2

/-- The two fields of the SNS lifecycle event the dispatcher reads. -/
structure LifecycleEvent where
  event : String
  ec2InstanceId : String
deriving Repr, DecidableEq

/-- The terminate dispatch of `handleASGLifecycleEvent` (webhook handler).
The launch branch performs timed readiness polling (wall-clock sleeps), which
is outside this state-based embedding; every non-terminate event leaves the
modelled state unchanged, matching the fact that the launch path never touches
the session keys handled here. -/
def handleTerminateLifecycleEvent (env : Env) (e : LifecycleEvent) (st : St) : St :=
  if e.event = "autoscaling:EC2_INSTANCE_TERMINATE" then
    processTerminatedInstance env e.ec2InstanceId st
  else st

/-! ## allocateMachine.ts (the doc-variant allocator)

This file computes `MAX_SIZE_OF_MACHINES = Number(process.env.ASG_MAX) ?? 3`.
JavaScript numbers are modelled by `JSNum`, which separates `NaN` from integer
values; the fragment only ever produces integers or `NaN`, so no other floats
are needed. -/

/-- A JavaScript number restricted to the values this code can produce. -/
inductive JSNum where
  | nan : JSNum
  | val (n : Int) : JSNum
deriving Repr, DecidableEq

namespace DocAlloc

/-- `Number(x)` for `x = process.env.VAR : string | undefined`:
`Number(undefined)` is `NaN`; a decimal integer literal parses to its value
(the absent corner cases of general JS number parsing are not produced by this
configuration). -/
def jsNumberOfEnv : Option String → JSNum
  | none => .nan
  | some s =>
    match s.toInt? with
    | some n => .val n
    | none => .nan

/-- The nullish-coalescing operator `a ?? b`: `b` only when `a` is
`null`/`undefined`; a number — `NaN` included — is never nullish. -/
def nullish : Option JSNum → JSNum → JSNum
  | none, d => d
  | some v, _ => v

/-- `MAX_SIZE_OF_MACHINES = Number(process.env.ASG_MAX) ?? 3`: the left operand
is always a number (possibly `NaN`), so the `?? 3` never fires. -/
def MAX_SIZE_OF_MACHINES (asgMaxEnv : Option String) : JSNum :=
  nullish (some (jsNumberOfEnv asgMaxEnv)) (.val 3)

/-- `WARM_SPARE = 1`. -/
def WARM_SPARE : Int := 1

/-- `Math.min`, which propagates `NaN`. -/
def jsMin : JSNum → JSNum → JSNum
  | .nan, _ => .nan
  | _, .nan => .nan
  | .val a, .val b => .val (min a b)

/-- JavaScript `>`: every comparison involving `NaN` is false. -/
def jsGt : JSNum → JSNum → Bool
  | .val a, .val b => a > b
  | _, _ => false

/-- JavaScript `<`: every comparison involving `NaN` is false. -/
def jsLt : JSNum → JSNum → Bool
  | .val a, .val b => a < b
  | _, _ => false

/-- `ensureTheCapacity` (allocateMachine.ts):
`desiredMachinesCount = Math.min(active + 1 + WARM_SPARE, MAX_SIZE_OF_MACHINES)`;
scale up only when `desiredMachinesCount > currentDesiredCapacity`.  No
try/catch here, so a failing call rejects the whole promise. -/
def ensureTheCapacity (asgMaxEnv : Option String) (env : Env) (st : St) :
    Except String St :=
  if env.zcardFails then .error "redis zcard failed"
  else
    let activePingingUsers : Int := st.pings.length
    let desiredMachinesCount :=
      jsMin (.val (activePingingUsers + 1 + WARM_SPARE)) (MAX_SIZE_OF_MACHINES asgMaxEnv)
    if env.asgDescribeFails then .error "asg describe failed"
    else
      let currentDesiredCapacity := st.asgDesired
      if jsGt desiredMachinesCount (.val currentDesiredCapacity) then
        if env.asgSetFails then .error "asg set failed"
        else
          match desiredMachinesCount with
          | .val d => .ok { st with asgDesired := d }
          | .nan => .ok st  -- unreachable: NaN never wins the > comparison
      else .ok st

/-- `tagInstanceOwner` (allocateMachine.ts). -/
def tagInstanceOwner (env : Env) (i : String) (owner : String) (st : St) :
    Except String St :=
  if env.tagFails i then .error "tag failed"
  else
    .ok { st with
      tags := upd st.tags i (some (owner, if owner = "UNASSIGNED" then "true" else "false")) }

/-- `allocateMachine` (allocateMachine.ts, the doc-variant): no try/catch, so
any thrown error rejects; the success and error response shapes are as in the
source.  `redis.hset` writes all five fields at `ws:<u>` and — unlike
`setUserWorkspace` in redis.ts — touches neither `inst:<i>` nor `ws:pings`. -/
def allocateMachine (asgMaxEnv : Option String) (env : Env) (u : String) (st : St) :
    Except String (Resp × St) :=
  if env.hgetallFails u then .error "redis hgetall failed"
  else
    let machine := st.ws u
    if truthy (machine.bind (fun w => w.instanceId)) then
      .ok (⟨true, "Machine was already present", "success",
        some ⟨none, machine.bind (fun w => w.publicIp)⟩, none⟩, st)
    else
      if env.spopFails then .error "redis spop failed"
      else
        match st.pool with
        | [] =>
          -- no free machine: check if there is room to upscale
          if env.asgDescribeFails then .error "asg describe failed"
          else
            let currentDesiredCapacity := st.asgDesired
            if jsLt (.val currentDesiredCapacity) (MAX_SIZE_OF_MACHINES asgMaxEnv) then
              if env.asgSetFails then .error "asg set failed"
              else
                .ok (⟨false, "Scaling in progress. Please try again shortly.",
                  "processing", none, some "Scaling in progress"⟩,
                  { st with asgDesired := currentDesiredCapacity + 1 })
            else
              .ok (⟨false, "No free machines and max capacity reached",
                "error", none, some "No free machines and max capacity reached"⟩, st)
        | freeMachineInstanceId :: rest =>
          let st1 := { st with pool := rest }
          if env.ec2DescribeFails freeMachineInstanceId then .error "describe failed"
          else
            let inst := env.describe freeMachineInstanceId
            let publicDnsName := inst.bind (fun ci => ci.publicDnsName)
            let publicIpAddress := inst.bind (fun ci => ci.publicIpAddress)
            let instanceId := inst.bind (fun ci => ci.instanceId)
            if ¬ truthy publicDnsName ∨ ¬ truthy publicIpAddress ∨ ¬ truthy instanceId then
              if env.saddFails freeMachineInstanceId then .error "redis sadd failed"
              else
                .ok (⟨false, "Failed to retrieve instance details",
                  "error", none, some "Failed to retrieve instance details"⟩,
                  { st1 with pool := sadd freeMachineInstanceId st1.pool })
            else
              match instanceId, publicIpAddress with
              | some iid, some ip =>
                if env.setWsFails u then .error "redis hset failed"
                else
                  let st2 := { st1 with
                    ws := upd st1.ws u (some
                      ⟨some iid, some ip, some (toString env.now), some "RUNNING",
                        some (toString env.now)⟩) }
                  match tagInstanceOwner env iid u st2 with
                  | .error e => .error e
                  | .ok st3 =>
                    match ensureTheCapacity asgMaxEnv env st3 with
                    | .error e => .error e
                    | .ok st4 =>
                      .ok (⟨true, "Machine allocated successfully", "success",
                        some ⟨some iid, some ((publicDnsName.filter (· ≠ "")).getD ip)⟩,
                        none⟩, st4)
              | _, _ => .error "unreachable: truthiness checked above"

end DocAlloc

/-! ## Fixtures used by concrete witnesses and counterexamples -/

/-- Environment in which every external call succeeds and the cloud reports no
instances. -/
def okEnv : Env where
  describe := fun _ => none
  ec2DescribeFails := fun _ => false
  hgetallFails := fun _ => false
  spopFails := false
  zcardFails := false
  zrangeFails := false
  scardFails := false
  setWsFails := fun _ => false
  tagFails := fun _ => false
  protectFails := fun _ => false
  unprotectFails := fun _ => false
  saddFails := fun _ => false
  sremFails := fun _ => false
  termFails := fun _ => false
  cleanupFails := fun _ => false
  instGetFails := fun _ => false
  asgDescribeFails := false
  asgSetFails := false
  now := 0
  idleTimeoutMs := 0
  asgInstanceIds := []

/-- Store and cloud state with nothing allocated. -/
def emptySt : St where
  ws := fun _ => none
  inst := fun _ => none
  pings := []
  pool := []
  tags := fun _ => none
  prot := fun _ => false
  asgDesired := 0
  terminated := []

/-- A bound RUNNING workspace hash for user alice on instance i-1. -/
def runningHashA : WsHash :=
  ⟨some "i-1", some "1.2.3.4", some "0", some "RUNNING", some "0"⟩

/-! ## C1: is the persistence step conditional on no RUNNING record? -/

/-- State in which alice already has a RUNNING record on i-1. -/
def stAliceRunning : St :=
  { emptySt with
    ws := upd emptySt.ws "alice" (some runningHashA),
    inst := upd emptySt.inst "i-1" (some "alice"),
    pings := [("alice", 0)] }

/-- The record a second allocation attempt would persist for alice. -/
def wAliceNew : WorkspaceInfo := ⟨"i-2", "5.6.7.8", "10", "RUNNING", "10"⟩

/-- Reaper-time environment: `now = 400000`, `IDLE_TIMEOUT_MS = 300000`, all
calls succeed. -/
def envReap : Env :=
  { okEnv with now := 400000, idleTimeoutMs := 300000 }

/-- The S5 scenario as stored state: alice bound to i-1, last ping at `0`. -/
def stAliceIdle : St :=
  { stAliceRunning with asgDesired := 2 }

/-- Five active users, empty pool, ASG currently at 3. -/
def stFiveActive : St :=
  { emptySt with
    pings := [("u1", 0), ("u2", 0), ("u3", 0), ("u4", 0), ("u5", 0)],
    asgDesired := 3 }

/-- Cloud view reporting i-1 as `pending` but with a public IP, plus the
clock. -/
def envPending : Env :=
  { okEnv with
    describe := fun i =>
      if i = "i-1" then some ⟨some "9.9.9.9", some "dns-1", some "i-1", some "pending"⟩
      else none,
    now := 100 }

/-- One warm spare i-1 and a current ASG capacity of 2. -/
def stPoolOne : St :=
  { emptySt with pool := ["i-1"], asgDesired := 2 }

/-- Cloud view in which warm spare i-bad is running but has no public IP. -/
def envNoIp : Env :=
  { okEnv with
    describe := fun i =>
      if i = "i-bad" then some ⟨none, some "dns-b", some "i-bad", some "running"⟩
      else none }

/-- One bad warm spare and a current ASG capacity of 2. -/
def stPoolBad : St :=
  { emptySt with pool := ["i-bad"], asgDesired := 2 }

/-- State with one warm spare i-9 and nothing allocated (the S6 scenario). -/
def stPoolNine : St :=
  { emptySt with pool := ["i-9"], asgDesired := 2 }

/-- Environment where i-9 is healthy but the persist step fails for dave. -/
def envPersistFail : Env :=
  { okEnv with
    setWsFails := fun u => u = "dave",
    describe := fun i =>
      if i = "i-9" then some ⟨some "3.3.3.3", some "dns-9", some "i-9", some "running"⟩
      else none,
    now := 900 }

/-- Environment where i-9 is healthy but tagging it fails. -/
def envTagFail : Env :=
  { okEnv with
    tagFails := fun i => i = "i-9",
    describe := fun i =>
      if i = "i-9" then some ⟨some "3.3.3.3", some "dns-9", some "i-9", some "running"⟩
      else none,
    now := 900 }

/-- Environment where the allocation pipeline succeeds up to the final
capacity reconcile, whose ASG describe call fails. -/
def envReconcileFail : Env :=
  { okEnv with
    asgDescribeFails := true,
    describe := fun i =>
      if i = "i-9" then some ⟨some "3.3.3.3", some "dns-9", some "i-9", some "running"⟩
      else none,
    now := 900 }

/-- State with a RUNNING record for alice and one warm spare i-2. -/
def stAliceAndSpare : St :=
  { stAliceRunning with pool := ["i-2"], asgDesired := 2 }

/-- Environment in which the idempotency read for alice fails but everything
else succeeds, and i-2 is a healthy running instance. -/
def envReadFail : Env :=
  { okEnv with
    hgetallFails := fun u => u = "alice",
    describe := fun i =>
      if i = "i-2" then some ⟨some "7.7.7.7", some "dns-2", some "i-2", some "running"⟩
      else none,
    now := 500 }

/-- A user whose record is already STOPPED but who still sits in the liveness
index with an old score. -/
def stBobStopped : St :=
  { emptySt with
    ws := upd emptySt.ws "bob"
      (some ⟨some "i-2", some "2.2.2.2", some "0", some "STOPPED", some "0"⟩),
    inst := upd emptySt.inst "i-2" (some "bob"),
    pings := [("bob", 0)],
    pool := ["i-2"],
    asgDesired := 2 }

/-- A user present in the liveness index without any workspace hash. -/
def stCarolGhost : St :=
  { emptySt with pings := [("carol", 0)] }

/-- C1 (counterexample): `setUserWorkspace` is not conditional.  With a RUNNING
record for alice already present, the write takes full effect and replaces the
record — the claim says the write must not take effect in this situation, and
there is no conflict signal that could drive the losing caller's
compensation. -/
theorem setUserWorkspace_overwrites_running_counterexample :
    stAliceRunning.ws "alice" = some runningHashA
    ∧ runningHashA.state = some "RUNNING"
    ∧ (match setUserWorkspace okEnv "alice" wAliceNew stAliceRunning with
        | .ok st1 => st1.ws "alice"
        | .error _ => none) = some wAliceNew.toHash
    ∧ wAliceNew.toHash ≠ runningHashA := by
  refine ⟨rfl, rfl, ?_, by decide⟩
  rfl

/-- C1 (amended): the persistence step is unconditional — even when a RUNNING
record already exists for the user, `setUserWorkspace` succeeds and overwrites
the record with the new workspace (and rewrites the inverse mapping and the
liveness index for the new instance).  At-most-one-record-per-user holds only
because the record lives at the single key `ws:<u>`. -/
theorem setUserWorkspace_unconditional_overwrite (env : Env) (u : String)
    (w : WorkspaceInfo) (st : St) (r : WsHash)
    (hfail : env.setWsFails u = false)
    (hrun : st.ws u = some r) (hstate : r.state = some "RUNNING") :
    ∃ st1, setUserWorkspace env u w st = .ok st1
      ∧ st1.ws u = some w.toHash
      ∧ st1.inst w.instanceId = some u
      ∧ u ∈ zmembers st1.pings := by
  refine ⟨{ st with
      ws := upd st.ws u (some w.toHash),
      inst := upd st.inst w.instanceId (some u),
      pings := zadd u (parseIntJS w.lastSeen) st.pings }, ?_, ?_, ?_, ?_⟩
  · simp [setUserWorkspace, hfail]
  · simp [upd]
  · simp [upd]
  · simp [zmembers, zadd]

/-- Witness for the amended C1 theorem at a concrete input. -/
theorem setUserWorkspace_unconditional_overwrite_witness :
    ∃ st1, setUserWorkspace okEnv "alice" wAliceNew stAliceRunning = .ok st1
      ∧ st1.ws "alice" = some wAliceNew.toHash
      ∧ st1.inst wAliceNew.instanceId = some "alice"
      ∧ "alice" ∈ zmembers st1.pings :=
  setUserWorkspace_unconditional_overwrite okEnv "alice" wAliceNew stAliceRunning runningHashA
    rfl rfl rfl

/-! ## C8: idempotent repeat allocation mutates nothing -/

/-- C8: when the user already has a RUNNING record with a truthy public IP,
`allocateMachine` returns that record's data unchanged and the final state is
exactly the input state — warm pool, session store, tags, protection and ASG
desired capacity are all untouched. -/
theorem allocateMachine_idempotent_no_mutation (cfg : Cfg) (env : Env)
    (u : String) (st : St) (w : WsHash)
    (hfail : env.hgetallFails u = false)
    (hw : st.ws u = some w)
    (hstate : w.state = some "RUNNING")
    (hip : truthy w.publicIp = true) :
    allocateMachine cfg env u st =
      (⟨true, "Machine already allocated", "success",
        some ⟨w.instanceId, w.publicIp⟩, none⟩, st) := by
  unfold allocateMachine
  rw [show getUserWorkspace env st u = some w by
    simp [getUserWorkspace, hfail, hw]]
  simp [hstate, hip]

/-- Witness for C8 at a concrete input. -/
theorem allocateMachine_idempotent_no_mutation_witness :
    allocateMachine ⟨5, 1⟩ okEnv "alice" stAliceRunning =
      (⟨true, "Machine already allocated", "success",
        some ⟨some "i-1", some "1.2.3.4"⟩, none⟩, stAliceRunning) :=
  allocateMachine_idempotent_no_mutation ⟨5, 1⟩ okEnv "alice" stAliceRunning runningHashA
    rfl rfl rfl rfl

/-! ## C7: is the workspace record purged after cleanup? -/

/-- C7 (counterexample): a full reaper tick on the S5 scenario cleans alice up
(the instance is terminated-decrementing and the user leaves the liveness
index), but the per-user record is NOT purged: `ws:alice` survives with
`state=STOPPED`, contradicting the claim that no WorkspaceRecord remains after
the reap. -/
theorem cleanupIdleMachines_record_not_purged_counterexample :
    (cleanupIdleMachines envReap stAliceIdle).1.cleanedUsers = ["alice"]
    ∧ (cleanupIdleMachines envReap stAliceIdle).1.terminatedInstances = ["i-1"]
    ∧ (cleanupIdleMachines envReap stAliceIdle).2.ws "alice"
        = some ⟨some "i-1", some "1.2.3.4", some "0", some "STOPPED", some "0"⟩ := by
  refine ⟨rfl, rfl, rfl⟩

/-- C7 (amended): `cleanupUserData` transitions the record to `state=STOPPED`,
removes the user from the liveness index and deletes the inverse mapping, but
it never deletes the `ws:<u>` hash — after the cleanup a WorkspaceRecord still
exists for the user, with state STOPPED. -/
theorem cleanupUserData_stops_without_purging (env : Env) (u i : String)
    (st : St) (hfail : env.cleanupFails u = false) :
    ∃ st1, cleanupUserData env u i st = .ok st1
      ∧ (st1.ws u).isSome = true
      ∧ (st1.ws u).bind (fun w => w.state) = some "STOPPED"
      ∧ u ∉ zmembers st1.pings
      ∧ st1.inst i = none := by
  refine ⟨_, by rw [cleanupUserData, hfail]; rfl, ?_, ?_, ?_, ?_⟩
  · cases h : st.ws u <;> simp [upd, h]
  · cases h : st.ws u <;> simp [upd, h]
  · simp [zmembers, zrem]
  · simp [upd]

/-- Witness for the amended C7 theorem at a concrete input. -/
theorem cleanupUserData_stops_without_purging_witness :
    ∃ st1, cleanupUserData okEnv "alice" "i-1" stAliceIdle = .ok st1
      ∧ (st1.ws "alice").isSome = true
      ∧ (st1.ws "alice").bind (fun w => w.state) = some "STOPPED"
      ∧ "alice" ∉ zmembers st1.pings
      ∧ st1.inst "i-1" = none :=
  cleanupUserData_stops_without_purging okEnv "alice" "i-1" stAliceIdle rfl

/-! ## C2: does every capacity-controller run clamp to maxInstances? -/

/-- C2 (counterexample): `ensureOptimalWarmSpares` computes
`targetCapacity = activeUsers + WARM_SPARE_COUNT` without the `MAX_MACHINES`
clamp: with `maxInstances = 3`, 5 active users and current capacity 3, the run
sets the ASG desired capacity to 6 — above `maxInstances`, and different from
`min(active + warmSpareTarget, maxInstances) = 3`. -/
theorem ensureOptimalWarmSpares_exceeds_max_counterexample :
    (match ensureOptimalWarmSpares ⟨3, 1⟩ okEnv stFiveActive with
      | .ok st1 => some st1.asgDesired
      | .error _ => none) = some 6
    ∧ min (getActiveUserCount okEnv stFiveActive + 1) 3 = 3
    ∧ ¬ ((6 : Int) ≤ 3) := by
  refine ⟨rfl, rfl, by decide⟩

/-- C2 (amended): the `ensureCapacity` controller (machineManager.ts) does
satisfy the claim: it computes `min(active + warmSpareTarget, maxInstances)`,
raises the ASG desired capacity to exactly that target when the target exceeds
the current capacity, and does nothing (state unchanged) otherwise — in
particular when target equals current; the resulting capacity never exceeds
`max(maxInstances, current)`.  The other two controller variants deviate:
`ensureOptimalWarmSpares` omits the clamp and `ensureTheCapacity` adds 1 for
the requesting user. -/
theorem ensureCapacity_targets_clamped_min (cfg : Cfg) (env : Env) (st : St)
    (hd : env.asgDescribeFails = false) (hs : env.asgSetFails = false) :
    ∃ st1, ensureCapacity cfg env st = .ok st1
      ∧ (min (getActiveUserCount env st + cfg.warmSpareCount) cfg.maxMachines
            > st.asgDesired →
          st1 = { st with
            asgDesired :=
              min (getActiveUserCount env st + cfg.warmSpareCount) cfg.maxMachines })
      ∧ (¬ min (getActiveUserCount env st + cfg.warmSpareCount) cfg.maxMachines
            > st.asgDesired →
          st1 = st)
      ∧ st1.asgDesired ≤ max cfg.maxMachines st.asgDesired := by
  have hcur : getCurrentASGCapacity env st = .ok st.asgDesired := by
    simp [getCurrentASGCapacity, hd]
  by_cases hgt :
      min (getActiveUserCount env st + cfg.warmSpareCount) cfg.maxMachines
        > st.asgDesired
  · refine ⟨_, ?_, fun _ => rfl, fun hn => absurd hgt hn, ?_⟩
    · simp [ensureCapacity, hcur, hgt, updateASGCapacity, hs]
    · exact le_trans (min_le_right _ _) (le_max_left _ _)
  · refine ⟨st, ?_, fun h => absurd h hgt, fun _ => rfl, le_max_right _ _⟩
    simp [ensureCapacity, hcur, hgt]

/-- Witness for the amended C2 theorem at a concrete input. -/
theorem ensureCapacity_targets_clamped_min_witness :
    ∃ st1, ensureCapacity ⟨5, 1⟩ okEnv stFiveActive = .ok st1
      ∧ (min (getActiveUserCount okEnv stFiveActive + 1) 5 > stFiveActive.asgDesired →
          st1 = { stFiveActive with
            asgDesired := min (getActiveUserCount okEnv stFiveActive + 1) 5 })
      ∧ (¬ min (getActiveUserCount okEnv stFiveActive + 1) 5 > stFiveActive.asgDesired →
          st1 = stFiveActive)
      ∧ st1.asgDesired ≤ max 5 stFiveActive.asgDesired :=
  ensureCapacity_targets_clamped_min ⟨5, 1⟩ okEnv stFiveActive rfl rfl

/-! ## C10: NaN max size in the doc-variant allocator -/

/-- C10: with `ASG_MAX` unset, `MAX_SIZE_OF_MACHINES = Number(undefined) ?? 3`
evaluates to `NaN` (the `??` never fires on a number), so `ensureTheCapacity`
never raises the capacity (`NaN > current` is false for every current value)
and the empty-pool branch of the doc-variant allocator always returns the
max-capacity error (`current < NaN` is false) instead of upscaling. -/
theorem docAlloc_nan_max_disables_scaling :
    DocAlloc.MAX_SIZE_OF_MACHINES none = JSNum.nan
    ∧ (∀ env st, env.zcardFails = false → env.asgDescribeFails = false →
        DocAlloc.ensureTheCapacity none env st = .ok st)
    ∧ (∀ env u st, env.hgetallFails u = false →
        truthy ((st.ws u).bind (fun w => w.instanceId)) = false →
        env.spopFails = false → st.pool = [] → env.asgDescribeFails = false →
        DocAlloc.allocateMachine none env u st =
          .ok (⟨false, "No free machines and max capacity reached",
            "error", none, some "No free machines and max capacity reached"⟩, st)) := by
  refine ⟨rfl, ?_, ?_⟩
  · intro env st hz hd
    simp [DocAlloc.ensureTheCapacity, hz, hd, DocAlloc.jsMin,
      DocAlloc.MAX_SIZE_OF_MACHINES, DocAlloc.jsNumberOfEnv, DocAlloc.nullish,
      DocAlloc.jsGt]
  · intro env u st hh ht hs hpool hd
    simp [DocAlloc.allocateMachine, hh, ht, hs, hpool, hd, DocAlloc.jsLt,
      DocAlloc.MAX_SIZE_OF_MACHINES, DocAlloc.jsNumberOfEnv, DocAlloc.nullish]

/-- Witness for C10 at concrete inputs. -/
theorem docAlloc_nan_max_disables_scaling_witness :
    DocAlloc.ensureTheCapacity none okEnv emptySt = .ok emptySt
    ∧ DocAlloc.allocateMachine none okEnv "carol" emptySt =
        .ok (⟨false, "No free machines and max capacity reached",
          "error", none, some "No free machines and max capacity reached"⟩, emptySt) :=
  ⟨docAlloc_nan_max_disables_scaling.2.1 okEnv emptySt rfl rfl,
    docAlloc_nan_max_disables_scaling.2.2 okEnv "carol" emptySt rfl rfl rfl rfl rfl⟩

/-! ## C3: what does allocation step 3 actually validate? -/

/-- C3 (counterexample): the allocator never checks the instance state.  With
`describeInstance` reporting `state=pending` (not `running`) but a non-empty
public IP, the allocation succeeds and a WorkspaceRecord is written — the
claim requires a bad-instance failure with no record written. -/
theorem allocateMachine_ignores_state_counterexample :
    (envPending.describe "i-1").map (fun ci => ci.stateName) = some (some "pending")
    ∧ (allocateMachine ⟨5, 1⟩ envPending "dave" stPoolOne).1.success = true
    ∧ (allocateMachine ⟨5, 1⟩ envPending "dave" stPoolOne).2.ws "dave"
        = some ⟨some "i-1", some "9.9.9.9", some "100", some "RUNNING", some "100"⟩ := by
  refine ⟨rfl, rfl, rfl⟩

/-- C3 (amended): validation requires only a non-empty public IP — the
instance state is not consulted.  When the IP is missing (no reservation, no
address, or an empty address), the instance is terminated with
desired-capacity decrement, it is not returned to the warm pool, the request
fails with the bad-instance error, and no WorkspaceRecord is written. -/
theorem allocateMachine_missing_ip_terminates (cfg : Cfg) (env : Env)
    (u i : String) (st : St) (rest : List String)
    (hnw : ∀ w, getUserWorkspace env st u = some w →
      ¬(w.state = some "RUNNING" ∧ truthy w.publicIp))
    (hpool : st.pool = i :: rest)
    (hsp : env.spopFails = false)
    (hdesc : env.ec2DescribeFails i = false)
    (hip : ∀ ci, env.describe i = some ci →
      ci.publicIpAddress = none ∨ ci.publicIpAddress = some "")
    (hterm : env.termFails i = false)
    (hrest : i ∉ rest) :
    allocateMachine cfg env u st =
      (errResp "Instance has no public IP and was terminated",
        { st with
          pool := rest,
          terminated := st.terminated ++ [i],
          asgDesired := st.asgDesired - 1 })
    ∧ (allocateMachine cfg env u st).2.ws u = st.ws u
    ∧ i ∉ (allocateMachine cfg env u st).2.pool := by
  have hterminate :
      getInstanceIP env i { st with pool := rest } =
        .error ("Instance has no public IP and was terminated",
          { st with
          pool := rest,
            terminated := st.terminated ++ [i],
            asgDesired := st.asgDesired - 1 }) := by
    rw [getInstanceIP, hdesc]
    cases hci : env.describe i with
    | none => simp [safelyTerminateInstance, hterm]
    | some ci =>
      rcases hip ci hci with hnone | hempty
      · simp [hnone, safelyTerminateInstance, hterm]
      · simp [hempty, safelyTerminateInstance, hterm]
  have hclaim :
      allocateMachine.allocateMachineClaim cfg env u st =
        (errResp "Instance has no public IP and was terminated",
          { st with
          pool := rest,
            terminated := st.terminated ++ [i],
            asgDesired := st.asgDesired - 1 }) := by
    rw [allocateMachine.allocateMachineClaim]
    rw [show popWarmSpare env st = (some i, { st with pool := rest }) by
      simp [popWarmSpare, hsp, hpool]]
    simp only [hterminate]
  have hmain :
      allocateMachine cfg env u st =
        (errResp "Instance has no public IP and was terminated",
          { st with
          pool := rest,
            terminated := st.terminated ++ [i],
            asgDesired := st.asgDesired - 1 }) := by
    rw [allocateMachine]
    cases hw : getUserWorkspace env st u with
    | none => exact hclaim
    | some w => simpa [if_neg (hnw w hw)] using hclaim
  refine ⟨hmain, ?_, ?_⟩
  · rw [hmain]
  · rw [hmain]
    exact hrest

/-! ### Shared helper lemmas -/

theorem mem_filter_ne_self (l : List String) (i : String) :
    i ∉ l.filter (fun j => j ≠ i) := by
  simp

theorem filter_ne_of_not_mem {l : List String} {i : String} (h : i ∉ l) :
    l.filter (fun j => j ≠ i) = l := by
  rw [List.filter_eq_self]
  intro a ha
  exact decide_eq_true fun heq => h (heq ▸ ha)

theorem not_mem_zmembers_zrem (u : String) (l : List (String × Int)) :
    u ∉ zmembers (zrem u l) := by
  simp only [zmembers, zrem, List.mem_map, List.mem_filter]
  rintro ⟨p, ⟨_, hp⟩, rfl⟩
  simp at hp

/-- `ensureCapacity` succeeds whenever the two cloud calls succeed, and it only
ever touches the ASG desired capacity. -/
theorem ensureCapacity_ok_frame (cfg : Cfg) (env : Env) (st : St)
    (hd : env.asgDescribeFails = false) (hs : env.asgSetFails = false) :
    ∃ st1, ensureCapacity cfg env st = .ok st1
      ∧ st1.ws = st.ws ∧ st1.inst = st.inst ∧ st1.pings = st.pings
      ∧ st1.pool = st.pool ∧ st1.tags = st.tags ∧ st1.prot = st.prot
      ∧ st1.terminated = st.terminated := by
  have hcur : getCurrentASGCapacity env st = .ok st.asgDesired := by
    simp [getCurrentASGCapacity, hd]
  by_cases hgt :
      min (getActiveUserCount env st + cfg.warmSpareCount) cfg.maxMachines
        > st.asgDesired
  · refine ⟨{ st with
        asgDesired :=
          min (getActiveUserCount env st + cfg.warmSpareCount) cfg.maxMachines },
      ?_, rfl, rfl, rfl, rfl, rfl, rfl, rfl⟩
    simp [ensureCapacity, hcur, hgt, updateASGCapacity, hs]
  · exact ⟨st, by simp [ensureCapacity, hcur, hgt], rfl, rfl, rfl, rfl, rfl, rfl, rfl⟩

/-- The success path of the allocation pipeline after the idempotency check:
with a warm spare at the head of the pool, a describable public IP and all
mutating calls succeeding, the claim binds the instance to the user. -/
theorem allocClaim_success (cfg : Cfg) (env : Env) (u i ip : String) (st : St)
    (rest : List String) (ci : CloudInst)
    (hpool : st.pool = i :: rest)
    (hsp : env.spopFails = false)
    (hdesc : env.ec2DescribeFails i = false)
    (hci : env.describe i = some ci)
    (hip2 : ci.publicIpAddress = some ip)
    (hipne : ip ≠ "")
    (htag : env.tagFails i = false)
    (hprot : env.protectFails i = false)
    (hsetws : env.setWsFails u = false)
    (hd : env.asgDescribeFails = false) (hs : env.asgSetFails = false) :
    ∃ st6, allocateMachine.allocateMachineClaim cfg env u st =
      (⟨true, "Machine allocated successfully", "success",
        some ⟨some i, some ip⟩, none⟩, st6)
    ∧ st6.ws = upd st.ws u
        (some ⟨some i, some ip, some (toString env.now), some "RUNNING",
          some (toString env.now)⟩)
    ∧ st6.inst = upd st.inst i (some u)
    ∧ st6.pool = rest := by
  have h2 : popWarmSpare env st = (some i, { st with pool := rest }) := by
    simp [popWarmSpare, hsp, hpool]
  have h3 : getInstanceIP env i { st with pool := rest } =
      .ok (ip, { st with pool := rest }) := by
    rw [getInstanceIP, hdesc]
    simp [hci, hip2, hipne]
  have h4 : tagInstance env i u { st with pool := rest } =
      .ok { st with
        pool := rest,
        tags := upd st.tags i (some (u, if u = "UNASSIGNED" then "true" else "false")) } := by
    simp [tagInstance, htag]
  have h5 : protectActiveInstances env [i]
      { st with
        pool := rest,
        tags := upd st.tags i (some (u, if u = "UNASSIGNED" then "true" else "false")) } =
      .ok { st with
        pool := rest,
        tags := upd st.tags i (some (u, if u = "UNASSIGNED" then "true" else "false")),
        prot := fun j => if j ∈ [i] then true else st.prot j } := by
    simp [protectActiveInstances, hprot]
  have h6 : setUserWorkspace env u
      ⟨i, ip, toString env.now, "RUNNING", toString env.now⟩
      { st with
        pool := rest,
        tags := upd st.tags i (some (u, if u = "UNASSIGNED" then "true" else "false")),
        prot := fun j => if j ∈ [i] then true else st.prot j } =
      .ok { st with
        pool := rest,
        tags := upd st.tags i (some (u, if u = "UNASSIGNED" then "true" else "false")),
        prot := fun j => if j ∈ [i] then true else st.prot j,
        ws := upd st.ws u
          (some ⟨some i, some ip, some (toString env.now), some "RUNNING",
            some (toString env.now)⟩),
        inst := upd st.inst i (some u),
        pings := zadd u (parseIntJS (toString env.now)) st.pings } := by
    simp [setUserWorkspace, hsetws, WorkspaceInfo.toHash]
  obtain ⟨st6, h7, hws6, hinst6, _, hpool6, _, _, _⟩ :=
    ensureCapacity_ok_frame cfg env
      { st with
        pool := rest,
        tags := upd st.tags i (some (u, if u = "UNASSIGNED" then "true" else "false")),
        prot := fun j => if j ∈ [i] then true else st.prot j,
        ws := upd st.ws u
          (some ⟨some i, some ip, some (toString env.now), some "RUNNING",
            some (toString env.now)⟩),
        inst := upd st.inst i (some u),
        pings := zadd u (parseIntJS (toString env.now)) st.pings } hd hs
  refine ⟨st6, ?_, ?_, ?_, ?_⟩
  · rw [allocateMachine.allocateMachineClaim]
    simp only [h2, h3, h4, h5, h6, h7]
  · exact hws6
  · exact hinst6
  · exact hpool6

/-- Witness for the amended C3 theorem: a warm spare whose `DescribeInstances`
row carries no public IP. -/
theorem allocateMachine_missing_ip_terminates_witness :
    allocateMachine ⟨5, 1⟩ envNoIp "dave" stPoolBad =
      (errResp "Instance has no public IP and was terminated",
        { stPoolBad with
          pool := [],
          terminated := stPoolBad.terminated ++ ["i-bad"],
          asgDesired := stPoolBad.asgDesired - 1 })
    ∧ (allocateMachine ⟨5, 1⟩ envNoIp "dave" stPoolBad).2.ws "dave"
        = stPoolBad.ws "dave"
    ∧ "i-bad" ∉ (allocateMachine ⟨5, 1⟩ envNoIp "dave" stPoolBad).2.pool :=
  allocateMachine_missing_ip_terminates ⟨5, 1⟩ envNoIp "dave" "i-bad" stPoolBad []
    (fun w hw => by simp [getUserWorkspace, envNoIp, okEnv, stPoolBad, emptySt] at hw)
    rfl rfl rfl
    (fun ci hci => by
      rw [show envNoIp.describe "i-bad"
          = some ⟨none, some "dns-b", some "i-bad", some "running"⟩ from rfl] at hci
      cases hci
      exact Or.inl rfl)
    rfl (by simp)

/-! ## C5: terminate-event cleanup -/

/-- C5: after processing `InstanceTerminate(i)`, the instance is out of the
warm pool, the inverse mapping `inst:i` is absent, and if it referenced a
user then that user has left the liveness index; on an unknown instance the
handler is a no-op. -/
theorem terminate_event_cleanup (env : Env) (st : St) (i : String)
    (hsrem : env.sremFails i = false)
    (hget : env.instGetFails i = false)
    (hcf : ∀ u, st.inst i = some u → env.cleanupFails u = false) :
    i ∉ (handleTerminateLifecycleEvent env
        ⟨"autoscaling:EC2_INSTANCE_TERMINATE", i⟩ st).pool
    ∧ (handleTerminateLifecycleEvent env
        ⟨"autoscaling:EC2_INSTANCE_TERMINATE", i⟩ st).inst i = none
    ∧ (∀ u, st.inst i = some u →
        u ∉ zmembers (handleTerminateLifecycleEvent env
          ⟨"autoscaling:EC2_INSTANCE_TERMINATE", i⟩ st).pings)
    ∧ (st.inst i = none → i ∉ st.pool →
        handleTerminateLifecycleEvent env
          ⟨"autoscaling:EC2_INSTANCE_TERMINATE", i⟩ st = st) := by
  have hev : handleTerminateLifecycleEvent env
      ⟨"autoscaling:EC2_INSTANCE_TERMINATE", i⟩ st =
      processTerminatedInstance env i st := by
    simp [handleTerminateLifecycleEvent]
  have hrm : removeFromWarmPool env i st =
      .ok { st with pool := st.pool.filter (fun j => j ≠ i) } := by
    simp [removeFromWarmPool, hsrem]
  cases hinst : st.inst i with
  | none =>
    have hproc : processTerminatedInstance env i st =
        { st with pool := st.pool.filter (fun j => j ≠ i) } := by
      rw [processTerminatedInstance]
      simp only [hrm]
      simp [getUserFromInstance, hget, hinst]
    refine ⟨?_, ?_, ?_, ?_⟩
    · rw [hev, hproc]; exact mem_filter_ne_self _ _
    · rw [hev, hproc]; exact hinst
    · intro u hu; exact Option.noConfusion hu
    · intro _ hnp
      rw [hev, hproc, filter_ne_of_not_mem hnp]
  | some u =>
    have hproc : processTerminatedInstance env i st =
        { st with
          pool := st.pool.filter (fun j => j ≠ i),
          ws := upd st.ws u (some (match st.ws u with
            | some w => { w with state := some "STOPPED" }
            | none => ⟨none, none, none, some "STOPPED", none⟩)),
          pings := zrem u st.pings,
          inst := upd st.inst i none } := by
      rw [processTerminatedInstance]
      simp only [hrm]
      rw [show getUserFromInstance env
          { st with pool := st.pool.filter (fun j => j ≠ i) } i = some u by
        simp [getUserFromInstance, hget, hinst]]
      simp [cleanupUserData, hcf u hinst]
    refine ⟨?_, ?_, ?_, ?_⟩
    · rw [hev, hproc]; exact mem_filter_ne_self _ _
    · rw [hev, hproc]; simp [upd]
    · intro v hv
      cases hv
      rw [hev, hproc]
      exact not_mem_zmembers_zrem _ _
    · intro habs; exact Option.noConfusion habs

/-- Witness for C5: a terminate event for i-1 owned by alice. -/
theorem terminate_event_cleanup_witness :
    "i-1" ∉ (handleTerminateLifecycleEvent okEnv
        ⟨"autoscaling:EC2_INSTANCE_TERMINATE", "i-1"⟩ stAliceIdle).pool
    ∧ (handleTerminateLifecycleEvent okEnv
        ⟨"autoscaling:EC2_INSTANCE_TERMINATE", "i-1"⟩ stAliceIdle).inst "i-1" = none
    ∧ (∀ u, stAliceIdle.inst "i-1" = some u →
        u ∉ zmembers (handleTerminateLifecycleEvent okEnv
          ⟨"autoscaling:EC2_INSTANCE_TERMINATE", "i-1"⟩ stAliceIdle).pings)
    ∧ (stAliceIdle.inst "i-1" = none → "i-1" ∉ stAliceIdle.pool →
        handleTerminateLifecycleEvent okEnv
          ⟨"autoscaling:EC2_INSTANCE_TERMINATE", "i-1"⟩ stAliceIdle = stAliceIdle) :=
  terminate_event_cleanup okEnv stAliceIdle "i-1" rfl rfl (fun _ _ => rfl)

/-! ## C9: read failures are swallowed and the allocator rebinds -/

/-- C9: every session-store read helper swallows its error and returns the
empty value, and consequently the allocator treats a failing idempotency read
exactly like "no workspace": even though a RUNNING record exists for the user,
it claims a fresh warm spare and binds it, overwriting the record. -/
theorem read_failures_swallowed_allocator_rebinds :
    (∀ env st u, env.hgetallFails u = true → getUserWorkspace env st u = none)
    ∧ (∀ env st, env.spopFails = true → popWarmSpare env st = (none, st))
    ∧ (∀ env st, env.zcardFails = true → getActiveUserCount env st = 0)
    ∧ (∀ env st, env.zrangeFails = true → getIdleUsers env st = [])
    ∧ (∀ cfg env u st i ip rest w ci,
        env.hgetallFails u = true →
        st.ws u = some w → w.state = some "RUNNING" → truthy w.publicIp = true →
        st.pool = i :: rest → env.spopFails = false →
        env.ec2DescribeFails i = false → env.describe i = some ci →
        ci.publicIpAddress = some ip → ip ≠ "" →
        env.tagFails i = false → env.protectFails i = false →
        env.setWsFails u = false →
        env.asgDescribeFails = false → env.asgSetFails = false →
        ∃ st6, allocateMachine cfg env u st =
          (⟨true, "Machine allocated successfully", "success",
            some ⟨some i, some ip⟩, none⟩, st6)
        ∧ st6.ws u = some ⟨some i, some ip, some (toString env.now),
            some "RUNNING", some (toString env.now)⟩) := by
  refine ⟨?_, ?_, ?_, ?_, ?_⟩
  · intro env st u h; simp [getUserWorkspace, h]
  · intro env st h; simp [popWarmSpare, h]
  · intro env st h; simp [getActiveUserCount, h]
  · intro env st h; simp [getIdleUsers, h]
  · intro cfg env u st i ip rest w ci hhg hw hwr hwp hpool hsp hdesc hci hip2
      hipne htag hprot hsetws hd hs
    obtain ⟨st6, hclaim, hws6, _, _⟩ :=
      allocClaim_success cfg env u i ip st rest ci hpool hsp hdesc hci hip2
        hipne htag hprot hsetws hd hs
    refine ⟨st6, ?_, ?_⟩
    · rw [allocateMachine]
      rw [show getUserWorkspace env st u = none by simp [getUserWorkspace, hhg]]
      exact hclaim
    · rw [hws6]; simp [upd]

/-! ## C4: compensation on late allocation failure -/

theorem mem_sadd (i : String) (l : List String) : i ∈ sadd i l := by
  by_cases h : i ∈ l <;> simp [sadd, h]

/-- C4: compensation after a late failure, for each of the four steps the
claim names.  Part 1 (persistence): when the atomic persist (step 7) fails
after tagging and protection succeeded, the allocator removes scale-in
protection, re-tags `Owner=UNASSIGNED, WarmSpare=true`, returns the instance
to the warm pool, returns an error response, writes no workspace record, and a
subsequent allocation by another user claims the returned instance.  Part 2
(protection): the same compensation and outcome when the protection step
fails.  Part 3 (tagging): when the tagging step fails, protection is removed
and the instance returns to the pool (the re-tag compensation shares the
failing tag call, so it is best-effort skipped and the tags are left as they
were), no record is written, an error is returned, and another user can claim
the instance.  Part 4 (reconcile): when the final capacity reconcile fails
after a successful persist, the same compensation runs, an error is returned,
and another user can claim the instance (the already-persisted record is left
in place, since no compensation step deletes session keys).  Part 5: the
compensation is best-effort per step — the pool re-add happens even if the
unprotect and re-tag compensations fail. -/
theorem allocateMachine_compensates_late_failures :
    (∀ (cfg : Cfg) (env : Env) (u i ip : String) (st : St) (ci : CloudInst),
      (∀ w, getUserWorkspace env st u = some w →
        ¬(w.state = some "RUNNING" ∧ truthy w.publicIp)) →
      st.pool = [i] → env.spopFails = false →
      env.ec2DescribeFails i = false → env.describe i = some ci →
      ci.publicIpAddress = some ip → ip ≠ "" →
      env.tagFails i = false → env.protectFails i = false →
      env.setWsFails u = true →
      env.unprotectFails i = false → env.saddFails i = false →
      ∃ st1, allocateMachine cfg env u st = (errResp "redis write failed", st1)
        ∧ st1.prot i = false
        ∧ st1.tags i = some ("UNASSIGNED", "true")
        ∧ i ∈ st1.pool
        ∧ st1.ws u = st.ws u
        ∧ (∀ (env2 : Env) (v ip2 : String) (ci2 : CloudInst),
            getUserWorkspace env2 st1 v = none →
            env2.spopFails = false → env2.ec2DescribeFails i = false →
            env2.describe i = some ci2 → ci2.publicIpAddress = some ip2 →
            ip2 ≠ "" → env2.tagFails i = false → env2.protectFails i = false →
            env2.setWsFails v = false →
            env2.asgDescribeFails = false → env2.asgSetFails = false →
            ∃ st7, allocateMachine cfg env2 v st1 =
              (⟨true, "Machine allocated successfully", "success",
                some ⟨some i, some ip2⟩, none⟩, st7)))
    ∧ (∀ (cfg : Cfg) (env : Env) (u i ip : String) (st : St) (ci : CloudInst),
      (∀ w, getUserWorkspace env st u = some w →
        ¬(w.state = some "RUNNING" ∧ truthy w.publicIp)) →
      st.pool = [i] → env.spopFails = false →
      env.ec2DescribeFails i = false → env.describe i = some ci →
      ci.publicIpAddress = some ip → ip ≠ "" →
      env.tagFails i = false → env.protectFails i = true →
      env.unprotectFails i = false → env.saddFails i = false →
      ∃ st1, allocateMachine cfg env u st = (errResp "protect failed", st1)
        ∧ st1.prot i = false
        ∧ st1.tags i = some ("UNASSIGNED", "true")
        ∧ i ∈ st1.pool
        ∧ st1.ws u = st.ws u)
    ∧ (∀ (cfg : Cfg) (env : Env) (u i ip : String) (st : St) (ci : CloudInst),
      (∀ w, getUserWorkspace env st u = some w →
        ¬(w.state = some "RUNNING" ∧ truthy w.publicIp)) →
      st.pool = [i] → env.spopFails = false →
      env.ec2DescribeFails i = false → env.describe i = some ci →
      ci.publicIpAddress = some ip → ip ≠ "" →
      env.tagFails i = true →
      env.unprotectFails i = false → env.saddFails i = false →
      ∃ st1, allocateMachine cfg env u st = (errResp "tag failed", st1)
        ∧ st1.prot i = false
        ∧ st1.tags i = st.tags i
        ∧ i ∈ st1.pool
        ∧ st1.ws u = st.ws u
        ∧ (∀ (env2 : Env) (v ip2 : String) (ci2 : CloudInst),
            getUserWorkspace env2 st1 v = none →
            env2.spopFails = false → env2.ec2DescribeFails i = false →
            env2.describe i = some ci2 → ci2.publicIpAddress = some ip2 →
            ip2 ≠ "" → env2.tagFails i = false → env2.protectFails i = false →
            env2.setWsFails v = false →
            env2.asgDescribeFails = false → env2.asgSetFails = false →
            ∃ st7, allocateMachine cfg env2 v st1 =
              (⟨true, "Machine allocated successfully", "success",
                some ⟨some i, some ip2⟩, none⟩, st7)))
    ∧ (∀ (cfg : Cfg) (env : Env) (u i ip : String) (st : St) (ci : CloudInst),
      (∀ w, getUserWorkspace env st u = some w →
        ¬(w.state = some "RUNNING" ∧ truthy w.publicIp)) →
      st.pool = [i] → env.spopFails = false →
      env.ec2DescribeFails i = false → env.describe i = some ci →
      ci.publicIpAddress = some ip → ip ≠ "" →
      env.tagFails i = false → env.protectFails i = false →
      env.setWsFails u = false →
      env.asgDescribeFails = true →
      env.unprotectFails i = false → env.saddFails i = false →
      ∃ st1, allocateMachine cfg env u st = (errResp "asg describe failed", st1)
        ∧ st1.prot i = false
        ∧ st1.tags i = some ("UNASSIGNED", "true")
        ∧ i ∈ st1.pool
        ∧ st1.ws u = some ⟨some i, some ip, some (toString env.now),
            some "RUNNING", some (toString env.now)⟩
        ∧ (∀ (env2 : Env) (v ip2 : String) (ci2 : CloudInst),
            getUserWorkspace env2 st1 v = none →
            env2.spopFails = false → env2.ec2DescribeFails i = false →
            env2.describe i = some ci2 → ci2.publicIpAddress = some ip2 →
            ip2 ≠ "" → env2.tagFails i = false → env2.protectFails i = false →
            env2.setWsFails v = false →
            env2.asgDescribeFails = false → env2.asgSetFails = false →
            ∃ st7, allocateMachine cfg env2 v st1 =
              (⟨true, "Machine allocated successfully", "success",
                some ⟨some i, some ip2⟩, none⟩, st7)))
    ∧ (∀ (env : Env) (i : String) (st : St),
      env.saddFails i = false → i ∈ (allocRollback env i st).pool) := by
  refine ⟨?_, ?_, ?_, ?_, ?_⟩
  · intro cfg env u i ip st ci hnw hpool hsp hdesc hci hip2 hipne htag hprot
      hsetws hunprot hsadd
    have h2 : popWarmSpare env st = (some i, { st with pool := [] }) := by
      simp [popWarmSpare, hsp, hpool]
    have h3 : getInstanceIP env i { st with pool := [] } =
        .ok (ip, { st with pool := [] }) := by
      rw [getInstanceIP, hdesc]
      simp [hci, hip2, hipne]
    have h4 : tagInstance env i u { st with pool := [] } =
        .ok { st with
          pool := [],
          tags := upd st.tags i
            (some (u, if u = "UNASSIGNED" then "true" else "false")) } := by
      simp [tagInstance, htag]
    have h5 : protectActiveInstances env [i]
        { st with
          pool := [],
          tags := upd st.tags i
            (some (u, if u = "UNASSIGNED" then "true" else "false")) } =
        .ok { st with
          pool := [],
          tags := upd st.tags i
            (some (u, if u = "UNASSIGNED" then "true" else "false")),
          prot := fun j => if j ∈ [i] then true else st.prot j } := by
      simp [protectActiveInstances, hprot]
    have h6 : setUserWorkspace env u
        ⟨i, ip, toString env.now, "RUNNING", toString env.now⟩
        { st with
          pool := [],
          tags := upd st.tags i
            (some (u, if u = "UNASSIGNED" then "true" else "false")),
          prot := fun j => if j ∈ [i] then true else st.prot j } =
        .error "redis write failed" := by
      simp [setUserWorkspace, hsetws]
    have hrb : allocRollback env i
        { st with
          pool := [],
          tags := upd st.tags i
            (some (u, if u = "UNASSIGNED" then "true" else "false")),
          prot := fun j => if j ∈ [i] then true else st.prot j } =
        { st with
          pool := sadd i [],
          tags := upd (upd st.tags i
            (some (u, if u = "UNASSIGNED" then "true" else "false"))) i
            (some ("UNASSIGNED", "true")),
          prot := fun j => if j ∈ [i] then false else
            (fun j2 => if j2 ∈ [i] then true else st.prot j2) j } := by
      rw [allocRollback]
      rw [show removeInstanceProtection env [i]
          { st with
            pool := [],
            tags := upd st.tags i
              (some (u, if u = "UNASSIGNED" then "true" else "false")),
            prot := fun j => if j ∈ [i] then true else st.prot j } =
          .ok { st with
            pool := [],
            tags := upd st.tags i
              (some (u, if u = "UNASSIGNED" then "true" else "false")),
            prot := fun j => if j ∈ [i] then false else
              (fun j2 => if j2 ∈ [i] then true else st.prot j2) j } from by
        simp [removeInstanceProtection, hunprot]]
      rw [show tagInstance env i "UNASSIGNED"
          { st with
            pool := [],
            tags := upd st.tags i
              (some (u, if u = "UNASSIGNED" then "true" else "false")),
            prot := fun j => if j ∈ [i] then false else
              (fun j2 => if j2 ∈ [i] then true else st.prot j2) j } =
          .ok { st with
            pool := [],
            tags := upd (upd st.tags i
              (some (u, if u = "UNASSIGNED" then "true" else "false"))) i
              (some ("UNASSIGNED", "true")),
            prot := fun j => if j ∈ [i] then false else
              (fun j2 => if j2 ∈ [i] then true else st.prot j2) j } from by
        simp [tagInstance, htag, upd]]
      simp [addToWarmPool, hsadd]
    have hmain : allocateMachine cfg env u st =
        (errResp "redis write failed",
          { st with
            pool := sadd i [],
            tags := upd (upd st.tags i
              (some (u, if u = "UNASSIGNED" then "true" else "false"))) i
              (some ("UNASSIGNED", "true")),
            prot := fun j => if j ∈ [i] then false else
              (fun j2 => if j2 ∈ [i] then true else st.prot j2) j }) := by
      have hclaim : allocateMachine.allocateMachineClaim cfg env u st =
          (errResp "redis write failed",
            allocRollback env i
              { st with
                pool := [],
                tags := upd st.tags i
                  (some (u, if u = "UNASSIGNED" then "true" else "false")),
                prot := fun j => if j ∈ [i] then true else st.prot j }) := by
        rw [allocateMachine.allocateMachineClaim]
        simp only [h2, h3, h4, h5, h6]
      have hcr : allocateMachine.allocateMachineClaim cfg env u st =
          (errResp "redis write failed",
            { st with
              pool := sadd i [],
              tags := upd (upd st.tags i
                (some (u, if u = "UNASSIGNED" then "true" else "false"))) i
                (some ("UNASSIGNED", "true")),
              prot := fun j => if j ∈ [i] then false else
                (fun j2 => if j2 ∈ [i] then true else st.prot j2) j }) := by
        rw [hclaim, hrb]
      rw [allocateMachine]
      cases hw : getUserWorkspace env st u with
      | none => exact hcr
      | some w => simpa [if_neg (hnw w hw)] using hcr
    refine ⟨_, hmain, ?_, ?_, ?_, ?_, ?_⟩
    · simp
    · simp [upd]
    · exact mem_sadd i []
    · rfl
    · intro env2 v ip2 ci2 hgw2 hsp2 hdesc2 hci2 hip22 hipne2 htag2 hprot2
        hsetws2 hd2 hs2
      obtain ⟨st7, hclaim7, _, _, _⟩ :=
        allocClaim_success cfg env2 v i ip2
          { st with
            pool := sadd i [],
            tags := upd (upd st.tags i
              (some (u, if u = "UNASSIGNED" then "true" else "false"))) i
              (some ("UNASSIGNED", "true")),
            prot := fun j => if j ∈ [i] then false else
              (fun j2 => if j2 ∈ [i] then true else st.prot j2) j }
          [] ci2 (by simp [sadd]) hsp2 hdesc2 hci2 hip22 hipne2 htag2 hprot2
          hsetws2 hd2 hs2
      refine ⟨st7, ?_⟩
      rw [allocateMachine, hgw2]
      exact hclaim7
  · intro cfg env u i ip st ci hnw hpool hsp hdesc hci hip2 hipne htag hprot
      hunprot hsadd
    have h2 : popWarmSpare env st = (some i, { st with pool := [] }) := by
      simp [popWarmSpare, hsp, hpool]
    have h3 : getInstanceIP env i { st with pool := [] } =
        .ok (ip, { st with pool := [] }) := by
      rw [getInstanceIP, hdesc]
      simp [hci, hip2, hipne]
    have h4 : tagInstance env i u { st with pool := [] } =
        .ok { st with
          pool := [],
          tags := upd st.tags i
            (some (u, if u = "UNASSIGNED" then "true" else "false")) } := by
      simp [tagInstance, htag]
    have h5 : protectActiveInstances env [i]
        { st with
          pool := [],
          tags := upd st.tags i
            (some (u, if u = "UNASSIGNED" then "true" else "false")) } =
        .error "protect failed" := by
      simp [protectActiveInstances, hprot]
    have hrb : allocRollback env i
        { st with
          pool := [],
          tags := upd st.tags i
            (some (u, if u = "UNASSIGNED" then "true" else "false")) } =
        { st with
          pool := sadd i [],
          tags := upd (upd st.tags i
            (some (u, if u = "UNASSIGNED" then "true" else "false"))) i
            (some ("UNASSIGNED", "true")),
          prot := fun j => if j ∈ [i] then false else st.prot j } := by
      rw [allocRollback]
      rw [show removeInstanceProtection env [i]
          { st with
            pool := [],
            tags := upd st.tags i
              (some (u, if u = "UNASSIGNED" then "true" else "false")) } =
          .ok { st with
            pool := [],
            tags := upd st.tags i
              (some (u, if u = "UNASSIGNED" then "true" else "false")),
            prot := fun j => if j ∈ [i] then false else st.prot j } from by
        simp [removeInstanceProtection, hunprot]]
      rw [show tagInstance env i "UNASSIGNED"
          { st with
            pool := [],
            tags := upd st.tags i
              (some (u, if u = "UNASSIGNED" then "true" else "false")),
            prot := fun j => if j ∈ [i] then false else st.prot j } =
          .ok { st with
            pool := [],
            tags := upd (upd st.tags i
              (some (u, if u = "UNASSIGNED" then "true" else "false"))) i
              (some ("UNASSIGNED", "true")),
            prot := fun j => if j ∈ [i] then false else st.prot j } from by
        simp [tagInstance, htag, upd]]
      simp [addToWarmPool, hsadd]
    have hmain : allocateMachine cfg env u st =
        (errResp "protect failed",
          { st with
            pool := sadd i [],
            tags := upd (upd st.tags i
              (some (u, if u = "UNASSIGNED" then "true" else "false"))) i
              (some ("UNASSIGNED", "true")),
            prot := fun j => if j ∈ [i] then false else st.prot j }) := by
      have hclaim : allocateMachine.allocateMachineClaim cfg env u st =
          (errResp "protect failed",
            allocRollback env i
              { st with
                pool := [],
                tags := upd st.tags i
                  (some (u, if u = "UNASSIGNED" then "true" else "false")) }) := by
        rw [allocateMachine.allocateMachineClaim]
        simp only [h2, h3, h4, h5]
      have hcr : allocateMachine.allocateMachineClaim cfg env u st =
          (errResp "protect failed",
            { st with
              pool := sadd i [],
              tags := upd (upd st.tags i
                (some (u, if u = "UNASSIGNED" then "true" else "false"))) i
                (some ("UNASSIGNED", "true")),
              prot := fun j => if j ∈ [i] then false else st.prot j }) := by
        rw [hclaim, hrb]
      rw [allocateMachine]
      cases hw : getUserWorkspace env st u with
      | none => exact hcr
      | some w => simpa [if_neg (hnw w hw)] using hcr
    refine ⟨_, hmain, ?_, ?_, ?_, ?_⟩
    · simp
    · simp [upd]
    · exact mem_sadd i []
    · rfl
  · intro cfg env u i ip st ci hnw hpool hsp hdesc hci hip2 hipne htag
      hunprot hsadd
    have h2 : popWarmSpare env st = (some i, { st with pool := [] }) := by
      simp [popWarmSpare, hsp, hpool]
    have h3 : getInstanceIP env i { st with pool := [] } =
        .ok (ip, { st with pool := [] }) := by
      rw [getInstanceIP, hdesc]
      simp [hci, hip2, hipne]
    have h4 : tagInstance env i u { st with pool := [] } =
        .error "tag failed" := by
      simp [tagInstance, htag]
    have hrb : allocRollback env i { st with pool := [] } =
        { st with
          pool := sadd i [],
          prot := fun j => if j ∈ [i] then false else st.prot j } := by
      rw [allocRollback]
      rw [show removeInstanceProtection env [i] { st with pool := [] } =
          .ok { st with
            pool := [],
            prot := fun j => if j ∈ [i] then false else st.prot j } from by
        simp [removeInstanceProtection, hunprot]]
      rw [show tagInstance env i "UNASSIGNED"
          { st with
            pool := [],
            prot := fun j => if j ∈ [i] then false else st.prot j } =
          .error "tag failed" from by
        simp [tagInstance, htag]]
      simp [addToWarmPool, hsadd]
    have hmain : allocateMachine cfg env u st =
        (errResp "tag failed",
          { st with
            pool := sadd i [],
            prot := fun j => if j ∈ [i] then false else st.prot j }) := by
      have hclaim : allocateMachine.allocateMachineClaim cfg env u st =
          (errResp "tag failed", allocRollback env i { st with pool := [] }) := by
        rw [allocateMachine.allocateMachineClaim]
        simp only [h2, h3, h4]
      have hcr : allocateMachine.allocateMachineClaim cfg env u st =
          (errResp "tag failed",
            { st with
              pool := sadd i [],
              prot := fun j => if j ∈ [i] then false else st.prot j }) := by
        rw [hclaim, hrb]
      rw [allocateMachine]
      cases hw : getUserWorkspace env st u with
      | none => exact hcr
      | some w => simpa [if_neg (hnw w hw)] using hcr
    refine ⟨_, hmain, ?_, ?_, ?_, ?_, ?_⟩
    · simp
    · rfl
    · exact mem_sadd i []
    · rfl
    · intro env2 v ip2 ci2 hgw2 hsp2 hdesc2 hci2 hip22 hipne2 htag2 hprot2
        hsetws2 hd2 hs2
      obtain ⟨st7, hclaim7, _, _, _⟩ :=
        allocClaim_success cfg env2 v i ip2
          { st with
            pool := sadd i [],
            prot := fun j => if j ∈ [i] then false else st.prot j }
          [] ci2 (by simp [sadd]) hsp2 hdesc2 hci2 hip22 hipne2 htag2 hprot2
          hsetws2 hd2 hs2
      refine ⟨st7, ?_⟩
      rw [allocateMachine, hgw2]
      exact hclaim7
  · intro cfg env u i ip st ci hnw hpool hsp hdesc hci hip2 hipne htag hprot
      hsetws hd hunprot hsadd
    have h2 : popWarmSpare env st = (some i, { st with pool := [] }) := by
      simp [popWarmSpare, hsp, hpool]
    have h3 : getInstanceIP env i { st with pool := [] } =
        .ok (ip, { st with pool := [] }) := by
      rw [getInstanceIP, hdesc]
      simp [hci, hip2, hipne]
    have h4 : tagInstance env i u { st with pool := [] } =
        .ok { st with
          pool := [],
          tags := upd st.tags i
            (some (u, if u = "UNASSIGNED" then "true" else "false")) } := by
      simp [tagInstance, htag]
    have h5 : protectActiveInstances env [i]
        { st with
          pool := [],
          tags := upd st.tags i
            (some (u, if u = "UNASSIGNED" then "true" else "false")) } =
        .ok { st with
          pool := [],
          tags := upd st.tags i
            (some (u, if u = "UNASSIGNED" then "true" else "false")),
          prot := fun j => if j ∈ [i] then true else st.prot j } := by
      simp [protectActiveInstances, hprot]
    have h6 : setUserWorkspace env u
        ⟨i, ip, toString env.now, "RUNNING", toString env.now⟩
        { st with
          pool := [],
          tags := upd st.tags i
            (some (u, if u = "UNASSIGNED" then "true" else "false")),
          prot := fun j => if j ∈ [i] then true else st.prot j } =
        .ok { st with
          pool := [],
          tags := upd st.tags i
            (some (u, if u = "UNASSIGNED" then "true" else "false")),
          prot := fun j => if j ∈ [i] then true else st.prot j,
          ws := upd st.ws u
            (some ⟨some i, some ip, some (toString env.now), some "RUNNING",
              some (toString env.now)⟩),
          inst := upd st.inst i (some u),
          pings := zadd u (parseIntJS (toString env.now)) st.pings } := by
      simp [setUserWorkspace, hsetws, WorkspaceInfo.toHash]
    have h7 : ensureCapacity cfg env
        { st with
          pool := [],
          tags := upd st.tags i
            (some (u, if u = "UNASSIGNED" then "true" else "false")),
          prot := fun j => if j ∈ [i] then true else st.prot j,
          ws := upd st.ws u
            (some ⟨some i, some ip, some (toString env.now), some "RUNNING",
              some (toString env.now)⟩),
          inst := upd st.inst i (some u),
          pings := zadd u (parseIntJS (toString env.now)) st.pings } =
        .error ("asg describe failed",
          { st with
            pool := [],
            tags := upd st.tags i
              (some (u, if u = "UNASSIGNED" then "true" else "false")),
            prot := fun j => if j ∈ [i] then true else st.prot j,
            ws := upd st.ws u
              (some ⟨some i, some ip, some (toString env.now), some "RUNNING",
                some (toString env.now)⟩),
            inst := upd st.inst i (some u),
            pings := zadd u (parseIntJS (toString env.now)) st.pings }) := by
      simp [ensureCapacity, getCurrentASGCapacity, hd]
    have hrb : allocRollback env i
        { st with
          pool := [],
          tags := upd st.tags i
            (some (u, if u = "UNASSIGNED" then "true" else "false")),
          prot := fun j => if j ∈ [i] then true else st.prot j,
          ws := upd st.ws u
            (some ⟨some i, some ip, some (toString env.now), some "RUNNING",
              some (toString env.now)⟩),
          inst := upd st.inst i (some u),
          pings := zadd u (parseIntJS (toString env.now)) st.pings } =
        { st with
          pool := sadd i [],
          tags := upd (upd st.tags i
            (some (u, if u = "UNASSIGNED" then "true" else "false"))) i
            (some ("UNASSIGNED", "true")),
          prot := fun j => if j ∈ [i] then false else
            (fun j2 => if j2 ∈ [i] then true else st.prot j2) j,
          ws := upd st.ws u
            (some ⟨some i, some ip, some (toString env.now), some "RUNNING",
              some (toString env.now)⟩),
          inst := upd st.inst i (some u),
          pings := zadd u (parseIntJS (toString env.now)) st.pings } := by
      rw [allocRollback]
      rw [show removeInstanceProtection env [i]
          { st with
            pool := [],
            tags := upd st.tags i
              (some (u, if u = "UNASSIGNED" then "true" else "false")),
            prot := fun j => if j ∈ [i] then true else st.prot j,
            ws := upd st.ws u
              (some ⟨some i, some ip, some (toString env.now), some "RUNNING",
                some (toString env.now)⟩),
            inst := upd st.inst i (some u),
            pings := zadd u (parseIntJS (toString env.now)) st.pings } =
          .ok { st with
            pool := [],
            tags := upd st.tags i
              (some (u, if u = "UNASSIGNED" then "true" else "false")),
            prot := fun j => if j ∈ [i] then false else
              (fun j2 => if j2 ∈ [i] then true else st.prot j2) j,
            ws := upd st.ws u
              (some ⟨some i, some ip, some (toString env.now), some "RUNNING",
                some (toString env.now)⟩),
            inst := upd st.inst i (some u),
            pings := zadd u (parseIntJS (toString env.now)) st.pings } from by
        simp [removeInstanceProtection, hunprot]]
      rw [show tagInstance env i "UNASSIGNED"
          { st with
            pool := [],
            tags := upd st.tags i
              (some (u, if u = "UNASSIGNED" then "true" else "false")),
            prot := fun j => if j ∈ [i] then false else
              (fun j2 => if j2 ∈ [i] then true else st.prot j2) j,
            ws := upd st.ws u
              (some ⟨some i, some ip, some (toString env.now), some "RUNNING",
                some (toString env.now)⟩),
            inst := upd st.inst i (some u),
            pings := zadd u (parseIntJS (toString env.now)) st.pings } =
          .ok { st with
            pool := [],
            tags := upd (upd st.tags i
              (some (u, if u = "UNASSIGNED" then "true" else "false"))) i
              (some ("UNASSIGNED", "true")),
            prot := fun j => if j ∈ [i] then false else
              (fun j2 => if j2 ∈ [i] then true else st.prot j2) j,
            ws := upd st.ws u
              (some ⟨some i, some ip, some (toString env.now), some "RUNNING",
                some (toString env.now)⟩),
            inst := upd st.inst i (some u),
            pings := zadd u (parseIntJS (toString env.now)) st.pings } from by
        simp [tagInstance, htag, upd]]
      simp [addToWarmPool, hsadd]
    have hmain : allocateMachine cfg env u st =
        (errResp "asg describe failed",
          { st with
            pool := sadd i [],
            tags := upd (upd st.tags i
              (some (u, if u = "UNASSIGNED" then "true" else "false"))) i
              (some ("UNASSIGNED", "true")),
            prot := fun j => if j ∈ [i] then false else
              (fun j2 => if j2 ∈ [i] then true else st.prot j2) j,
            ws := upd st.ws u
              (some ⟨some i, some ip, some (toString env.now), some "RUNNING",
                some (toString env.now)⟩),
            inst := upd st.inst i (some u),
            pings := zadd u (parseIntJS (toString env.now)) st.pings }) := by
      have hclaim : allocateMachine.allocateMachineClaim cfg env u st =
          (errResp "asg describe failed",
            allocRollback env i
              { st with
                pool := [],
                tags := upd st.tags i
                  (some (u, if u = "UNASSIGNED" then "true" else "false")),
                prot := fun j => if j ∈ [i] then true else st.prot j,
                ws := upd st.ws u
                  (some ⟨some i, some ip, some (toString env.now), some "RUNNING",
                    some (toString env.now)⟩),
                inst := upd st.inst i (some u),
                pings := zadd u (parseIntJS (toString env.now)) st.pings }) := by
        rw [allocateMachine.allocateMachineClaim]
        simp only [h2, h3, h4, h5, h6, h7]
      have hcr : allocateMachine.allocateMachineClaim cfg env u st =
          (errResp "asg describe failed",
            { st with
              pool := sadd i [],
              tags := upd (upd st.tags i
                (some (u, if u = "UNASSIGNED" then "true" else "false"))) i
                (some ("UNASSIGNED", "true")),
              prot := fun j => if j ∈ [i] then false else
                (fun j2 => if j2 ∈ [i] then true else st.prot j2) j,
              ws := upd st.ws u
                (some ⟨some i, some ip, some (toString env.now), some "RUNNING",
                  some (toString env.now)⟩),
              inst := upd st.inst i (some u),
              pings := zadd u (parseIntJS (toString env.now)) st.pings }) := by
        rw [hclaim, hrb]
      rw [allocateMachine]
      cases hw : getUserWorkspace env st u with
      | none => exact hcr
      | some w => simpa [if_neg (hnw w hw)] using hcr
    refine ⟨_, hmain, ?_, ?_, ?_, ?_, ?_⟩
    · simp
    · simp [upd]
    · exact mem_sadd i []
    · simp [upd]
    · intro env2 v ip2 ci2 hgw2 hsp2 hdesc2 hci2 hip22 hipne2 htag2 hprot2
        hsetws2 hd2 hs2
      obtain ⟨st7, hclaim7, _, _, _⟩ :=
        allocClaim_success cfg env2 v i ip2
          { st with
            pool := sadd i [],
            tags := upd (upd st.tags i
              (some (u, if u = "UNASSIGNED" then "true" else "false"))) i
              (some ("UNASSIGNED", "true")),
            prot := fun j => if j ∈ [i] then false else
              (fun j2 => if j2 ∈ [i] then true else st.prot j2) j,
            ws := upd st.ws u
              (some ⟨some i, some ip, some (toString env.now), some "RUNNING",
                some (toString env.now)⟩),
            inst := upd st.inst i (some u),
            pings := zadd u (parseIntJS (toString env.now)) st.pings }
          [] ci2 (by simp [sadd]) hsp2 hdesc2 hci2 hip22 hipne2 htag2 hprot2
          hsetws2 hd2 hs2
      refine ⟨st7, ?_⟩
      rw [allocateMachine, hgw2]
      exact hclaim7
  · intro env i st hsadd
    rw [allocRollback]
    cases hA : removeInstanceProtection env [i] st with
    | error e =>
      cases hB : tagInstance env i "UNASSIGNED" st with
      | error e2 => simp [addToWarmPool, hsadd, mem_sadd]
      | ok stB => simp [addToWarmPool, hsadd, mem_sadd]
    | ok stA =>
      cases hB : tagInstance env i "UNASSIGNED" stA with
      | error e2 => simp [addToWarmPool, hsadd, mem_sadd]
      | ok stB => simp [addToWarmPool, hsadd, mem_sadd]

/-- Witness for C4: the S6 persist-failure scenario, the tagging-failure and
reconcile-failure scenarios on the same warm spare, and the best-effort pool
re-add. -/
theorem allocateMachine_compensates_late_failures_witness :
    (∃ st1, allocateMachine ⟨5, 1⟩ envPersistFail "dave" stPoolNine =
        (errResp "redis write failed", st1)
      ∧ st1.prot "i-9" = false
      ∧ st1.tags "i-9" = some ("UNASSIGNED", "true")
      ∧ "i-9" ∈ st1.pool
      ∧ st1.ws "dave" = stPoolNine.ws "dave"
      ∧ (∀ (env2 : Env) (v ip2 : String) (ci2 : CloudInst),
          getUserWorkspace env2 st1 v = none →
          env2.spopFails = false → env2.ec2DescribeFails "i-9" = false →
          env2.describe "i-9" = some ci2 → ci2.publicIpAddress = some ip2 →
          ip2 ≠ "" → env2.tagFails "i-9" = false → env2.protectFails "i-9" = false →
          env2.setWsFails v = false →
          env2.asgDescribeFails = false → env2.asgSetFails = false →
          ∃ st7, allocateMachine ⟨5, 1⟩ env2 v st1 =
            (⟨true, "Machine allocated successfully", "success",
              some ⟨some "i-9", some ip2⟩, none⟩, st7)))
    ∧ (∃ st1, allocateMachine ⟨5, 1⟩ envTagFail "dave" stPoolNine =
        (errResp "tag failed", st1)
      ∧ st1.prot "i-9" = false
      ∧ st1.tags "i-9" = stPoolNine.tags "i-9"
      ∧ "i-9" ∈ st1.pool
      ∧ st1.ws "dave" = stPoolNine.ws "dave"
      ∧ (∀ (env2 : Env) (v ip2 : String) (ci2 : CloudInst),
          getUserWorkspace env2 st1 v = none →
          env2.spopFails = false → env2.ec2DescribeFails "i-9" = false →
          env2.describe "i-9" = some ci2 → ci2.publicIpAddress = some ip2 →
          ip2 ≠ "" → env2.tagFails "i-9" = false → env2.protectFails "i-9" = false →
          env2.setWsFails v = false →
          env2.asgDescribeFails = false → env2.asgSetFails = false →
          ∃ st7, allocateMachine ⟨5, 1⟩ env2 v st1 =
            (⟨true, "Machine allocated successfully", "success",
              some ⟨some "i-9", some ip2⟩, none⟩, st7)))
    ∧ (∃ st1, allocateMachine ⟨5, 1⟩ envReconcileFail "dave" stPoolNine =
        (errResp "asg describe failed", st1)
      ∧ st1.prot "i-9" = false
      ∧ st1.tags "i-9" = some ("UNASSIGNED", "true")
      ∧ "i-9" ∈ st1.pool
      ∧ st1.ws "dave" = some ⟨some "i-9", some "3.3.3.3",
          some (toString envReconcileFail.now), some "RUNNING",
          some (toString envReconcileFail.now)⟩
      ∧ (∀ (env2 : Env) (v ip2 : String) (ci2 : CloudInst),
          getUserWorkspace env2 st1 v = none →
          env2.spopFails = false → env2.ec2DescribeFails "i-9" = false →
          env2.describe "i-9" = some ci2 → ci2.publicIpAddress = some ip2 →
          ip2 ≠ "" → env2.tagFails "i-9" = false → env2.protectFails "i-9" = false →
          env2.setWsFails v = false →
          env2.asgDescribeFails = false → env2.asgSetFails = false →
          ∃ st7, allocateMachine ⟨5, 1⟩ env2 v st1 =
            (⟨true, "Machine allocated successfully", "success",
              some ⟨some "i-9", some ip2⟩, none⟩, st7)))
    ∧ "i-7" ∈ (allocRollback okEnv "i-7" emptySt).pool :=
  ⟨allocateMachine_compensates_late_failures.1 ⟨5, 1⟩ envPersistFail "dave" "i-9"
      "3.3.3.3" stPoolNine ⟨some "3.3.3.3", some "dns-9", some "i-9", some "running"⟩
      (fun w hw => by simp [getUserWorkspace, envPersistFail, okEnv, stPoolNine, emptySt] at hw)
      rfl rfl rfl rfl rfl (by decide) rfl rfl rfl rfl rfl,
    allocateMachine_compensates_late_failures.2.2.1 ⟨5, 1⟩ envTagFail "dave" "i-9"
      "3.3.3.3" stPoolNine ⟨some "3.3.3.3", some "dns-9", some "i-9", some "running"⟩
      (fun w hw => by simp [getUserWorkspace, envTagFail, okEnv, stPoolNine, emptySt] at hw)
      rfl rfl rfl rfl rfl (by decide) rfl rfl rfl,
    allocateMachine_compensates_late_failures.2.2.2.1 ⟨5, 1⟩ envReconcileFail "dave"
      "i-9" "3.3.3.3" stPoolNine ⟨some "3.3.3.3", some "dns-9", some "i-9", some "running"⟩
      (fun w hw => by simp [getUserWorkspace, envReconcileFail, okEnv, stPoolNine, emptySt] at hw)
      rfl rfl rfl rfl rfl (by decide) rfl rfl rfl rfl rfl rfl,
    allocateMachine_compensates_late_failures.2.2.2.2 okEnv "i-7" emptySt rfl⟩

/-! ## C6: the idle-reaper loop -/

/-- The state after one reaper iteration is one of four explicit shapes:
untouched (skip), pool-filtered (terminate failed), pool-filtered and
terminated (cleanup failed), or fully cleaned. -/
theorem cleanupStep_state_cases (env : Env) (u : String) (res : CleanupResult)
    (st : St) :
    (cleanupStep env u res st).2 = st
    ∨ (∃ i, (cleanupStep env u res st).2 =
        { st with pool := st.pool.filter (fun j => j ≠ i) })
    ∨ (∃ i, (cleanupStep env u res st).2 =
        { st with
          pool := st.pool.filter (fun j => j ≠ i),
          terminated := st.terminated ++ [i],
          asgDesired := st.asgDesired - 1 })
    ∨ (∃ i, (cleanupStep env u res st).2 =
        { st with
          pool := st.pool.filter (fun j => j ≠ i),
          terminated := st.terminated ++ [i],
          asgDesired := st.asgDesired - 1,
          ws := upd st.ws u (some (match st.ws u with
            | some w => { w with state := some "STOPPED" }
            | none => ⟨none, none, none, some "STOPPED", none⟩)),
          pings := zrem u st.pings,
          inst := upd st.inst i none }) := by
  cases hgw : getUserWorkspace env st u with
  | none =>
    refine Or.inl ?_
    rw [cleanupStep]
    simp only [hgw]
  | some w =>
    cases hwi : w.instanceId with
    | none =>
      refine Or.inl ?_
      rw [cleanupStep]
      simp only [hgw, hwi]
    | some i =>
      by_cases hie : i = ""
      · refine Or.inl ?_
        rw [cleanupStep]
        simp only [hgw, hwi, if_pos hie]
      · by_cases hsr : env.sremFails i = true
        · refine Or.inl ?_
          rw [cleanupStep]
          simp only [hgw, hwi, if_neg hie,
            show removeFromWarmPool env i st = .error "redis srem failed" by
              simp [removeFromWarmPool, hsr]]
        · have hrm : removeFromWarmPool env i st =
              .ok { st with pool := st.pool.filter (fun j => j ≠ i) } := by
            simp [removeFromWarmPool, hsr]
          by_cases htm : env.termFails i = true
          · refine Or.inr (Or.inl ⟨i, ?_⟩)
            rw [cleanupStep]
            simp only [hgw, hwi, if_neg hie, hrm,
              show safelyTerminateInstance env i
                  { st with pool := st.pool.filter (fun j => j ≠ i) } =
                  .error "terminate failed" by
                simp [safelyTerminateInstance, htm]]
          · have hterm : safelyTerminateInstance env i
                { st with pool := st.pool.filter (fun j => j ≠ i) } =
                .ok { st with
                  pool := st.pool.filter (fun j => j ≠ i),
                  terminated := st.terminated ++ [i],
                  asgDesired := st.asgDesired - 1 } := by
              simp [safelyTerminateInstance, htm]
            by_cases hcl : env.cleanupFails u = true
            · refine Or.inr (Or.inr (Or.inl ⟨i, ?_⟩))
              rw [cleanupStep]
              simp only [hgw, hwi, if_neg hie, hrm, hterm,
                show cleanupUserData env u i
                    { st with
                      pool := st.pool.filter (fun j => j ≠ i),
                      terminated := st.terminated ++ [i],
                      asgDesired := st.asgDesired - 1 } =
                    .error "redis cleanup failed" by
                  simp [cleanupUserData, hcl]]
            · refine Or.inr (Or.inr (Or.inr ⟨i, ?_⟩))
              rw [cleanupStep]
              simp only [hgw, hwi, if_neg hie, hrm, hterm,
                show cleanupUserData env u i
                    { st with
                      pool := st.pool.filter (fun j => j ≠ i),
                      terminated := st.terminated ++ [i],
                      asgDesired := st.asgDesired - 1 } =
                    .ok { st with
                      pool := st.pool.filter (fun j => j ≠ i),
                      terminated := st.terminated ++ [i],
                      asgDesired := st.asgDesired - 1,
                      ws := upd st.ws u (some (match st.ws u with
                        | some w => { w with state := some "STOPPED" }
                        | none => ⟨none, none, none, some "STOPPED", none⟩)),
                      pings := zrem u st.pings,
                      inst := upd st.inst i none } by
                  simp [cleanupUserData, hcl]]

/-- One reaper iteration leaves every other user's workspace hash alone. -/
theorem cleanupStep_ws_frame (env : Env) (u : String) (res : CleanupResult)
    (st : St) (v : String) (hv : v ≠ u) :
    ((cleanupStep env u res st).2).ws v = st.ws v := by
  rcases cleanupStep_state_cases env u res st with h | ⟨i, h⟩ | ⟨i, h⟩ | ⟨i, h⟩ <;>
    rw [h]
  simp [upd, hv]

/-- One reaper iteration can only shrink the warm pool. -/
theorem cleanupStep_pool_subset (env : Env) (u : String) (res : CleanupResult)
    (st : St) (a : String) (ha : a ∈ (cleanupStep env u res st).2.pool) :
    a ∈ st.pool := by
  rcases cleanupStep_state_cases env u res st with h | ⟨i, h⟩ | ⟨i, h⟩ | ⟨i, h⟩ <;>
    rw [h] at ha
  · exact ha
  all_goals exact (List.mem_filter.mp ha).1

/-- One reaper iteration can only shrink the liveness index. -/
theorem cleanupStep_pings_subset (env : Env) (u : String) (res : CleanupResult)
    (st : St) (m : String) (hm : m ∈ zmembers (cleanupStep env u res st).2.pings) :
    m ∈ zmembers st.pings := by
  rcases cleanupStep_state_cases env u res st with h | ⟨i, h⟩ | ⟨i, h⟩ | ⟨i, h⟩ <;>
    rw [h] at hm
  · exact hm
  · exact hm
  · exact hm
  · simp only [zmembers, zrem, List.mem_map] at hm ⊢
    obtain ⟨p, hp, hpe⟩ := hm
    exact ⟨p, (List.mem_filter.mp hp).1, hpe⟩

/-- One reaper iteration never recreates an absent inverse mapping. -/
theorem cleanupStep_inst_none (env : Env) (u : String) (res : CleanupResult)
    (st : St) (j : String) (hj : st.inst j = none) :
    (cleanupStep env u res st).2.inst j = none := by
  rcases cleanupStep_state_cases env u res st with h | ⟨i, h⟩ | ⟨i, h⟩ | ⟨i, h⟩ <;>
    rw [h]
  · exact hj
  · exact hj
  · exact hj
  · by_cases hji : j = i <;> simp [upd, hji, hj]

/-- One reaper iteration never removes an entry from the terminated log. -/
theorem cleanupStep_terminated_mono (env : Env) (u : String)
    (res : CleanupResult) (st : St) (a : String) (ha : a ∈ st.terminated) :
    a ∈ (cleanupStep env u res st).2.terminated := by
  rcases cleanupStep_state_cases env u res st with h | ⟨i, h⟩ | ⟨i, h⟩ | ⟨i, h⟩ <;>
    rw [h]
  · exact ha
  · exact ha
  all_goals exact List.mem_append_left _ ha

/-- The result of one reaper iteration is the input result, an extra error, or
an extra cleaned user with their terminated instance. -/
theorem cleanupStep_res_cases (env : Env) (u : String) (res : CleanupResult)
    (st : St) :
    (cleanupStep env u res st).1 = res
    ∨ (∃ e, (cleanupStep env u res st).1 =
        { res with errors := res.errors ++ [e] })
    ∨ (∃ i, (cleanupStep env u res st).1 =
        { res with
          terminatedInstances := res.terminatedInstances ++ [i],
          cleanedUsers := res.cleanedUsers ++ [u] }) := by
  cases hgw : getUserWorkspace env st u with
  | none =>
    refine Or.inl ?_
    rw [cleanupStep]
    simp only [hgw]
  | some w =>
    cases hwi : w.instanceId with
    | none =>
      refine Or.inl ?_
      rw [cleanupStep]
      simp only [hgw, hwi]
    | some i =>
      by_cases hie : i = ""
      · refine Or.inl ?_
        rw [cleanupStep]
        simp only [hgw, hwi, if_pos hie]
      · cases hrm : removeFromWarmPool env i st with
        | error e =>
          refine Or.inr (Or.inl ⟨cleanupErrMsg u e, ?_⟩)
          rw [cleanupStep]
          simp only [hgw, hwi, if_neg hie, hrm]
        | ok st1 =>
          cases htm : safelyTerminateInstance env i st1 with
          | error e =>
            refine Or.inr (Or.inl ⟨cleanupErrMsg u e, ?_⟩)
            rw [cleanupStep]
            simp only [hgw, hwi, if_neg hie, hrm, htm]
          | ok st2 =>
            cases hcl : cleanupUserData env u i st2 with
            | error e =>
              refine Or.inr (Or.inl ⟨cleanupErrMsg u e, ?_⟩)
              rw [cleanupStep]
              simp only [hgw, hwi, if_neg hie, hrm, htm, hcl]
            | ok st3 =>
              refine Or.inr (Or.inr ⟨i, ?_⟩)
              rw [cleanupStep]
              simp only [hgw, hwi, if_neg hie, hrm, htm, hcl]

/-- Monotonicity of the per-iteration result: cleaned users are never
dropped. -/
theorem cleanupStep_cleaned_mono (env : Env) (u : String) (res : CleanupResult)
    (st : St) (a : String) (ha : a ∈ res.cleanedUsers) :
    a ∈ (cleanupStep env u res st).1.cleanedUsers := by
  rcases cleanupStep_res_cases env u res st with h | ⟨e, h⟩ | ⟨i, h⟩ <;> rw [h]
  · exact ha
  · exact ha
  · exact List.mem_append_left _ ha

/-- Monotonicity of the per-iteration result: terminated instances are never
dropped. -/
theorem cleanupStep_termres_mono (env : Env) (u : String) (res : CleanupResult)
    (st : St) (a : String) (ha : a ∈ res.terminatedInstances) :
    a ∈ (cleanupStep env u res st).1.terminatedInstances := by
  rcases cleanupStep_res_cases env u res st with h | ⟨e, h⟩ | ⟨i, h⟩ <;> rw [h]
  · exact ha
  · exact ha
  · exact List.mem_append_left _ ha

/-- An iteration can add only the current user to the cleaned list. -/
theorem cleanupStep_cleaned_subset (env : Env) (u : String)
    (res : CleanupResult) (st : St) (a : String)
    (ha : a ∈ (cleanupStep env u res st).1.cleanedUsers) :
    a ∈ res.cleanedUsers ∨ a = u := by
  rcases cleanupStep_res_cases env u res st with h | ⟨e, h⟩ | ⟨i, h⟩ <;> rw [h] at ha
  · exact Or.inl ha
  · exact Or.inl ha
  · rcases List.mem_append.mp ha with h1 | h1
    · exact Or.inl h1
    · exact Or.inr (List.mem_singleton.mp h1)

/-- Loop version of the workspace frame: users not in the batch keep their
hash. -/
theorem cleanupLoop_ws_frame (env : Env) (us : List String) (v : String)
    (hv : v ∉ us) : ∀ res st, ((cleanupLoop env us res st).2).ws v = st.ws v := by
  induction us with
  | nil => intro res st; rfl
  | cons u rest ih =>
    intro res st
    have hvu : v ≠ u := fun h => hv (h ▸ List.mem_cons_self u rest)
    have hvr : v ∉ rest := fun h => hv (List.mem_cons_of_mem _ h)
    rw [cleanupLoop, ih hvr]
    exact cleanupStep_ws_frame env u res st v hvu

/-- Loop version: the pool only shrinks. -/
theorem cleanupLoop_pool_subset (env : Env) (us : List String) :
    ∀ res st a, a ∈ (cleanupLoop env us res st).2.pool → a ∈ st.pool := by
  induction us with
  | nil => intro res st a ha; exact ha
  | cons u rest ih =>
    intro res st a ha
    rw [cleanupLoop] at ha
    exact cleanupStep_pool_subset env u res st a (ih _ _ a ha)

/-- Loop version: the liveness index only shrinks. -/
theorem cleanupLoop_pings_subset (env : Env) (us : List String) :
    ∀ res st m, m ∈ zmembers (cleanupLoop env us res st).2.pings →
      m ∈ zmembers st.pings := by
  induction us with
  | nil => intro res st m hm; exact hm
  | cons u rest ih =>
    intro res st m hm
    rw [cleanupLoop] at hm
    exact cleanupStep_pings_subset env u res st m (ih _ _ m hm)

/-- Loop version: absent inverse mappings stay absent. -/
theorem cleanupLoop_inst_none (env : Env) (us : List String) :
    ∀ res st j, st.inst j = none → (cleanupLoop env us res st).2.inst j = none := by
  induction us with
  | nil => intro res st j hj; exact hj
  | cons u rest ih =>
    intro res st j hj
    rw [cleanupLoop]
    exact ih _ _ j (cleanupStep_inst_none env u res st j hj)

/-- Loop version: the terminated log only grows. -/
theorem cleanupLoop_terminated_mono (env : Env) (us : List String) :
    ∀ res st a, a ∈ st.terminated →
      a ∈ (cleanupLoop env us res st).2.terminated := by
  induction us with
  | nil => intro res st a ha; exact ha
  | cons u rest ih =>
    intro res st a ha
    rw [cleanupLoop]
    exact ih _ _ a (cleanupStep_terminated_mono env u res st a ha)

/-- Loop version: cleaned users are never dropped. -/
theorem cleanupLoop_cleaned_mono (env : Env) (us : List String) :
    ∀ res st a, a ∈ res.cleanedUsers →
      a ∈ (cleanupLoop env us res st).1.cleanedUsers := by
  induction us with
  | nil => intro res st a ha; exact ha
  | cons u rest ih =>
    intro res st a ha
    rw [cleanupLoop]
    exact ih _ _ a (cleanupStep_cleaned_mono env u res st a ha)

/-- Loop version: terminated instances in the result are never dropped. -/
theorem cleanupLoop_termres_mono (env : Env) (us : List String) :
    ∀ res st a, a ∈ res.terminatedInstances →
      a ∈ (cleanupLoop env us res st).1.terminatedInstances := by
  induction us with
  | nil => intro res st a ha; exact ha
  | cons u rest ih =>
    intro res st a ha
    rw [cleanupLoop]
    exact ih _ _ a (cleanupStep_termres_mono env u res st a ha)

/-- Loop version: a cleaned user comes from the initial result or the batch. -/
theorem cleanupLoop_cleaned_subset (env : Env) (us : List String) :
    ∀ res st a, a ∈ (cleanupLoop env us res st).1.cleanedUsers →
      a ∈ res.cleanedUsers ∨ a ∈ us := by
  induction us with
  | nil => intro res st a ha; exact Or.inl ha
  | cons u rest ih =>
    intro res st a ha
    rw [cleanupLoop] at ha
    rcases ih _ _ a ha with h | h
    · rcases cleanupStep_cleaned_subset env u res st a h with h1 | h1
      · exact Or.inl h1
      · exact Or.inr (h1 ▸ List.mem_cons_self u rest)
    · exact Or.inr (List.mem_cons_of_mem _ h)

/-- The loop over a concatenation is the composition of the two loops. -/
theorem cleanupLoop_append (env : Env) (a b : List String) :
    ∀ res st, cleanupLoop env (a ++ b) res st =
      cleanupLoop env b (cleanupLoop env a res st).1 (cleanupLoop env a res st).2 := by
  induction a with
  | nil => intro res st; rfl
  | cons u rest ih =>
    intro res st
    rw [List.cons_append, cleanupLoop, cleanupLoop]
    exact ih _ _

/-- An idle user with a bound workspace and succeeding calls is fully
processed by their iteration. -/
theorem cleanupStep_success (env : Env) (u i : String) (res : CleanupResult)
    (st : St) (w : WsHash)
    (hhg : env.hgetallFails u = false)
    (hw : st.ws u = some w) (hwi : w.instanceId = some i) (hie : i ≠ "")
    (hsr : env.sremFails i = false) (htm : env.termFails i = false)
    (hcl : env.cleanupFails u = false) :
    cleanupStep env u res st =
      ({ res with
        terminatedInstances := res.terminatedInstances ++ [i],
        cleanedUsers := res.cleanedUsers ++ [u] },
      { st with
        pool := st.pool.filter (fun j => j ≠ i),
        terminated := st.terminated ++ [i],
        asgDesired := st.asgDesired - 1,
        ws := upd st.ws u (some { w with state := some "STOPPED" }),
        pings := zrem u st.pings,
        inst := upd st.inst i none }) := by
  rw [cleanupStep]
  simp only [show getUserWorkspace env st u = some w by
      simp [getUserWorkspace, hhg, hw],
    hwi, if_neg hie,
    show removeFromWarmPool env i st =
        .ok { st with pool := st.pool.filter (fun j => j ≠ i) } by
      simp [removeFromWarmPool, hsr],
    show safelyTerminateInstance env i
        { st with pool := st.pool.filter (fun j => j ≠ i) } =
        .ok { st with
          pool := st.pool.filter (fun j => j ≠ i),
          terminated := st.terminated ++ [i],
          asgDesired := st.asgDesired - 1 } by
      simp [safelyTerminateInstance, htm],
    show cleanupUserData env u i
        { st with
          pool := st.pool.filter (fun j => j ≠ i),
          terminated := st.terminated ++ [i],
          asgDesired := st.asgDesired - 1 } =
        .ok { st with
          pool := st.pool.filter (fun j => j ≠ i),
          terminated := st.terminated ++ [i],
          asgDesired := st.asgDesired - 1,
          ws := upd st.ws u (some { w with state := some "STOPPED" }),
          pings := zrem u st.pings,
          inst := upd st.inst i none } by
      simp [cleanupUserData, hcl, hw]]

/-- An idle user whose workspace is absent or has a falsy `instanceId` is
skipped: result and state are untouched. -/
theorem cleanupStep_skip (env : Env) (u : String) (res : CleanupResult)
    (st : St)
    (hskip : getUserWorkspace env st u = none
      ∨ ∃ w, getUserWorkspace env st u = some w ∧ truthy w.instanceId = false) :
    cleanupStep env u res st = (res, st) := by
  rcases hskip with h | ⟨w, hw, hfalsy⟩
  · rw [cleanupStep]
    simp only [h]
  · cases hwi : w.instanceId with
    | none =>
      rw [cleanupStep]
      simp only [hw, hwi]
    | some i =>
      have hie : i = "" := by
        rw [hwi] at hfalsy
        by_contra hne
        simp [truthy, hne] at hfalsy
      rw [cleanupStep]
      simp only [hw, hwi, if_pos hie]

/-- C6 (counterexample): the reaper does not skip users whose workspace is
already STOPPED.  bob's record has `state=STOPPED`, yet his idle entry is
processed: i-2 is terminated and bob is reported cleaned — the claim requires
the user to be skipped. -/
theorem cleanupIdleMachines_processes_stopped_counterexample :
    (stBobStopped.ws "bob").bind (fun w => w.state) = some "STOPPED"
    ∧ getIdleUsers envReap stBobStopped = ["bob"]
    ∧ (cleanupIdleMachines envReap stBobStopped).1.terminatedInstances = ["i-2"]
    ∧ (cleanupIdleMachines envReap stBobStopped).1.cleanedUsers = ["bob"]
    ∧ "i-2" ∈ (cleanupIdleMachines envReap stBobStopped).2.terminated := by
  refine ⟨rfl, rfl, rfl, rfl, ?_⟩
  simp [cleanupIdleMachines, cleanupLoop, cleanupStep, getIdleUsers,
    getUserWorkspace, removeFromWarmPool, safelyTerminateInstance,
    cleanupUserData, envReap, okEnv, stBobStopped, emptySt, upd]

/-- C6 (amended): on a reaper tick, an idle user is skipped iff the workspace
hash is absent or its `instanceId` field is falsy — the STOPPED state is not
consulted.  Otherwise the user is processed: the instance is removed from the
warm pool, terminated with desired-capacity decrement, and the session is
cleaned up; and because each user runs in its own try/catch, arbitrary
failures for the other users in the batch do not prevent this user's
processing (the theorem's environment is free to fail every call that does
not involve this user). -/
theorem cleanupIdleMachines_per_idle_user :
    (∀ (env : Env) (st : St) (u i : String) (w : WsHash) (l1 l2 : List String),
      getIdleUsers env st = l1 ++ u :: l2 → u ∉ l1 → u ∉ l2 →
      env.hgetallFails u = false →
      st.ws u = some w → w.instanceId = some i → i ≠ "" →
      env.sremFails i = false → env.termFails i = false →
      env.cleanupFails u = false →
      u ∈ (cleanupIdleMachines env st).1.cleanedUsers
      ∧ i ∈ (cleanupIdleMachines env st).1.terminatedInstances
      ∧ i ∈ (cleanupIdleMachines env st).2.terminated
      ∧ u ∉ zmembers (cleanupIdleMachines env st).2.pings
      ∧ (cleanupIdleMachines env st).2.inst i = none
      ∧ i ∉ (cleanupIdleMachines env st).2.pool
      ∧ (cleanupIdleMachines env st).2.ws u = some { w with state := some "STOPPED" })
    ∧ (∀ (env : Env) (st : St) (u : String) (l1 l2 : List String),
      getIdleUsers env st = l1 ++ u :: l2 → u ∉ l1 → u ∉ l2 →
      (getUserWorkspace env st u = none
        ∨ ∃ w, getUserWorkspace env st u = some w ∧ truthy w.instanceId = false) →
      u ∉ (cleanupIdleMachines env st).1.cleanedUsers
      ∧ (cleanupIdleMachines env st).2.ws u = st.ws u) := by
  constructor
  · intro env st u i w l1 l2 hidle hul1 hul2 hhg hw hwi hie hsr htm hcl
    have hws2 : (cleanupLoop env l1 ⟨[], [], []⟩ st).2.ws u = some w := by
      rw [cleanupLoop_ws_frame env l1 u hul1, hw]
    have hstep := cleanupStep_success env u i
      (cleanupLoop env l1 ⟨[], [], []⟩ st).1
      (cleanupLoop env l1 ⟨[], [], []⟩ st).2 w hhg hws2 hwi hie hsr htm hcl
    have hidle2 : cleanupIdleMachines env st =
        cleanupLoop env l2
          ({ (cleanupLoop env l1 ⟨[], [], []⟩ st).1 with
            terminatedInstances :=
              (cleanupLoop env l1 ⟨[], [], []⟩ st).1.terminatedInstances ++ [i],
            cleanedUsers :=
              (cleanupLoop env l1 ⟨[], [], []⟩ st).1.cleanedUsers ++ [u] })
          ({ (cleanupLoop env l1 ⟨[], [], []⟩ st).2 with
            pool := (cleanupLoop env l1 ⟨[], [], []⟩ st).2.pool.filter (fun j => j ≠ i),
            terminated := (cleanupLoop env l1 ⟨[], [], []⟩ st).2.terminated ++ [i],
            asgDesired := (cleanupLoop env l1 ⟨[], [], []⟩ st).2.asgDesired - 1,
            ws := upd (cleanupLoop env l1 ⟨[], [], []⟩ st).2.ws u
              (some { w with state := some "STOPPED" }),
            pings := zrem u (cleanupLoop env l1 ⟨[], [], []⟩ st).2.pings,
            inst := upd (cleanupLoop env l1 ⟨[], [], []⟩ st).2.inst i none }) := by
      rw [cleanupIdleMachines, hidle, cleanupLoop_append, cleanupLoop, hstep]
    rw [hidle2]
    refine ⟨?_, ?_, ?_, ?_, ?_, ?_, ?_⟩
    · exact cleanupLoop_cleaned_mono env l2 _ _ u (List.mem_append_right _ (by simp))
    · exact cleanupLoop_termres_mono env l2 _ _ i (List.mem_append_right _ (by simp))
    · exact cleanupLoop_terminated_mono env l2 _ _ i (List.mem_append_right _ (by simp))
    · intro hmem
      exact not_mem_zmembers_zrem u _ (cleanupLoop_pings_subset env l2 _ _ u hmem)
    · exact cleanupLoop_inst_none env l2 _ _ i (by simp [upd])
    · intro hmem
      exact mem_filter_ne_self _ i (cleanupLoop_pool_subset env l2 _ _ i hmem)
    · rw [cleanupLoop_ws_frame env l2 u hul2]
      simp [upd]
  · intro env st u l1 l2 hidle hul1 hul2 hskip
    have hwsM : (cleanupLoop env l1 ⟨[], [], []⟩ st).2.ws u = st.ws u :=
      cleanupLoop_ws_frame env l1 u hul1 _ st
    have hg : getUserWorkspace env (cleanupLoop env l1 ⟨[], [], []⟩ st).2 u =
        getUserWorkspace env st u := by
      rw [getUserWorkspace, getUserWorkspace, hwsM]
    have hskipM : getUserWorkspace env (cleanupLoop env l1 ⟨[], [], []⟩ st).2 u = none
        ∨ ∃ w, getUserWorkspace env (cleanupLoop env l1 ⟨[], [], []⟩ st).2 u = some w
          ∧ truthy w.instanceId = false := by
      rw [hg]; exact hskip
    have hstep := cleanupStep_skip env u
      (cleanupLoop env l1 ⟨[], [], []⟩ st).1
      (cleanupLoop env l1 ⟨[], [], []⟩ st).2 hskipM
    have hidle2 : cleanupIdleMachines env st =
        cleanupLoop env l2
          (cleanupLoop env l1 ⟨[], [], []⟩ st).1
          (cleanupLoop env l1 ⟨[], [], []⟩ st).2 := by
      rw [cleanupIdleMachines, hidle, cleanupLoop_append, cleanupLoop, hstep]
    rw [hidle2]
    constructor
    · intro hmem
      rcases cleanupLoop_cleaned_subset env l2 _ _ u hmem with h | h
      · rcases cleanupLoop_cleaned_subset env l1 _ _ u h with h1 | h1
        · simp at h1
        · exact hul1 h1
      · exact hul2 h
    · rw [cleanupLoop_ws_frame env l2 u hul2, hwsM]

/-- Witness for C6: alice is processed, carol (no workspace) is skipped. -/
theorem cleanupIdleMachines_per_idle_user_witness :
    ("alice" ∈ (cleanupIdleMachines envReap stAliceIdle).1.cleanedUsers
      ∧ "i-1" ∈ (cleanupIdleMachines envReap stAliceIdle).1.terminatedInstances
      ∧ "i-1" ∈ (cleanupIdleMachines envReap stAliceIdle).2.terminated
      ∧ "alice" ∉ zmembers (cleanupIdleMachines envReap stAliceIdle).2.pings
      ∧ (cleanupIdleMachines envReap stAliceIdle).2.inst "i-1" = none
      ∧ "i-1" ∉ (cleanupIdleMachines envReap stAliceIdle).2.pool
      ∧ (cleanupIdleMachines envReap stAliceIdle).2.ws "alice"
          = some { runningHashA with state := some "STOPPED" })
    ∧ ("carol" ∉ (cleanupIdleMachines envReap stCarolGhost).1.cleanedUsers
      ∧ (cleanupIdleMachines envReap stCarolGhost).2.ws "carol"
          = stCarolGhost.ws "carol") :=
  ⟨cleanupIdleMachines_per_idle_user.1 envReap stAliceIdle "alice" "i-1"
      runningHashA [] [] rfl (by simp) (by simp) rfl rfl rfl (by decide) rfl rfl rfl,
    cleanupIdleMachines_per_idle_user.2 envReap stCarolGhost "carol" [] []
      rfl (by simp) (by simp) (Or.inl rfl)⟩

/-- Witness for C9: the failing read makes the allocator rebind alice. -/
theorem read_failures_swallowed_allocator_rebinds_witness :
    getUserWorkspace envReadFail stAliceAndSpare "alice" = none
    ∧ ∃ st6, allocateMachine ⟨5, 1⟩ envReadFail "alice" stAliceAndSpare =
        (⟨true, "Machine allocated successfully", "success",
          some ⟨some "i-2", some "7.7.7.7"⟩, none⟩, st6)
      ∧ st6.ws "alice" = some ⟨some "i-2", some "7.7.7.7", some (toString envReadFail.now),
          some "RUNNING", some (toString envReadFail.now)⟩ :=
  ⟨read_failures_swallowed_allocator_rebinds.1 envReadFail stAliceAndSpare "alice" rfl,
    read_failures_swallowed_allocator_rebinds.2.2.2.2 ⟨5, 1⟩ envReadFail "alice"
      stAliceAndSpare "i-2" "7.7.7.7" [] runningHashA
      ⟨some "7.7.7.7", some "dns-2", some "i-2", some "running"⟩
      rfl rfl rfl rfl rfl rfl rfl rfl rfl (by decide) rfl rfl rfl rfl rfl⟩

end MCS

